import Mathlib

/-!
Verification development for the `riot_auth` package (file `riot_auth/auth.py`).

The Python code is shallowly embedded: Python strings become `List Char`
(named `PyStr`), Python runtime values that flow through the authentication
engine become the inductive `PyVal`, raised exceptions become the inductive
`PyError`, and an object's `__dict__` becomes an association list `Dict`.
Network traffic is abstracted by an environment `Env` that supplies the JSON
payload of each response of one authorization run; file-system side effects
(`pickle.dump`, writing `accountData.json`) are not modelled, as they do not
feed back into the engine's state.
-/

set_option maxRecDepth 4096

/-- A Python `str`, embedded as its list of characters. -/
abbrev PyStr := List Char

/-- Conversion from a Lean string literal to the embedded Python string. -/
def pystr (s : String) : PyStr := s.toList

/-- A cookie jar (`aiohttp.CookieJar`), modelled as its list of cookies
(name/value pairs); the engine only ever clears it, replaces it, or passes it
along, so no further structure is needed. -/
abbrev Jar := List (PyStr × PyStr)

/-- Modelled from the spec: the error taxonomy of `riot_auth.auth_exceptions`
(that module is imported by `auth.py` but is not part of the sources; §7 of the
spec lists the kinds).  Each kind is distinct and none is a subclass of
another.  The non-Riot constructors model the Python builtin exceptions that
the embedded library calls can raise.  `nameError` models the evaluation of an
identifier that is not defined anywhere (Python raises `NameError`). -/
inductive PyError where
  | keyError (k : PyStr)
  | typeError
  | attributeError
  | indexError
  | valueError
  | binasciiError
  | unicodeDecodeError
  | jsonDecodeError
  | nameError (n : PyStr)
  | notImplementedError
  | riotAuthenticationError
  | riotRatelimitError
  | riotUnknownErrorTypeError
  | riotUnknownResponseTypeError
  | riotMultifactorError
deriving DecidableEq, Repr

/-- TLS protocol versions, as in Python's `ssl.TLSVersion`. -/
inductive TLSVersion where
  | TLSv1
  | TLSv1_1
  | TLSv1_2
  | TLSv1_3
deriving DecidableEq, Repr

/-- The slice of Python's `ssl.SSLContext` state that
`RiotAuth.create_riot_auth_ssl_ctx` configures: minimum protocol version, the
ALPN protocol list, the option bit mask, and the three negotiation-parameter
strings installed through `libssl` (`SSL_CTX_set_ciphersuites`,
`SSL_CTX_set_cipher_list`, and `SSL_CTX_ctrl(.., 98, ..)` = sigalgs list). -/
structure SSLContext where
  minimum_version : TLSVersion
  alpn_protocols : List PyStr
  options : Nat
  ciphersuites : PyStr
  cipher_list : PyStr
  sigalgs_list : PyStr
deriving DecidableEq, Repr

/-- A Python runtime value as it flows through the engine: JSON data
(`None`, booleans, numbers, strings, lists, dicts), plus the cookie jar and
the SSL context stored on the `RiotAuth` instance.  JSON numbers are either
integers (`int`) or the decimal floats of JSON source, kept symbolically as
mantissa and power-of-ten exponent (`floatv m e` denotes m·10^e); `inf`/`nan`
model the `Infinity`/`NaN` literals Python's `json` module accepts.  A `dict`
is an association list; dicts built by this development have unique keys, in
insertion order, exactly like Python dicts. -/
inductive PyVal where
  | none
  | bool (b : Bool)
  | int (n : Int)
  | floatv (m : Int) (e : Int)
  | inf (neg : Bool)
  | nan
  | str (s : PyStr)
  | list (xs : List PyVal)
  | dict (m : List (PyStr × PyVal))
  | jar (j : Jar)
  | sslctx (c : SSLContext)

/-- An object's `__dict__`: attribute names to values, in insertion order. -/
abbrev Dict := List (PyStr × PyVal)

/-- First-match lookup in an association list.  The dicts built by the
embedding have unique keys, so this agrees with Python dict lookup. -/
def dlookup (k : PyStr) : List (PyStr × PyVal) → Option PyVal
  | [] => Option.none
  | p :: rest => if p.1 = k then some p.2 else dlookup k rest

/-- Python `d[k] = v` on a dict: replace the value in place if the key is
present (keeping its position), otherwise append the new pair. -/
def dset : List (PyStr × PyVal) → PyStr → PyVal → List (PyStr × PyVal)
  | [], k, v => [(k, v)]
  | p :: rest, k, v => if p.1 = k then (k, v) :: rest else p :: dset rest k v

/-- Python `d.update(pairs)`: `dset` each pair in order. -/
def dictUpdate (d : List (PyStr × PyVal)) (l : List (PyStr × PyVal)) :
    List (PyStr × PyVal) :=
  l.foldl (fun d p => dset d p.1 p.2) d

/-- The value the key ends up with after feeding a pair list to a Python dict:
the value of the key's last occurrence, if any. -/
def lastVal (k : PyStr) : List (PyStr × PyVal) → Option PyVal
  | [] => Option.none
  | p :: rest =>
    match lastVal k rest with
    | some v => some v
    | Option.none => if p.1 = k then some p.2 else Option.none

/-- The standard base64 alphabet, shared by `base64.b64decode` and (after
translation of `-`/`_`) `base64.urlsafe_b64decode`. -/
def stdB64Alphabet : List Char :=
  pystr "ABCDEFGHIJKLMNOPQRSTUVWXYZabcdefghijklmnopqrstuvwxyz0123456789+/"

/-- Index of a character in a list, or none. -/
def idxOfChar : List Char → Char → Nat → Option Nat
  | [], _, _ => Option.none
  | a :: rest, c, i => if a = c then some i else idxOfChar rest c (i + 1)

/-- The 6-bit value of a base64 alphabet character, none for other chars. -/
def b64val (c : Char) : Option Nat := idxOfChar stdB64Alphabet c 0

/-- The next input character that the base64 decoder would not skip (an
alphabet character or the pad `=`), as in `binascii_find_valid`. -/
def nextValid : List Char → Option Char
  | [] => Option.none
  | c :: rest => if c = '=' ∨ (b64val c).isSome then some c else nextValid rest

/-- CPython's lenient `binascii.a2b_base64`: characters outside the alphabet
are skipped; a pad `=` is skipped unless it occurs at quad position ≥ 2 (for
position 2, only when the next unskipped character is also `=`), in which case
it terminates decoding; input ending in the middle of a quad is an
`Invalid padding` error (`none`).  `quadpos` is the position within the
current 4-character group and `leftchar` holds its pending bits. -/
def a2b : List Char → Nat → Nat → List Nat → Option (List Nat)
  | [], quadpos, _, out => if quadpos = 0 then some out.reverse else Option.none
  | c :: rest, quadpos, leftchar, out =>
    if c = '=' then
      if quadpos < 2 ∨ (quadpos = 2 ∧ nextValid rest ≠ some '=') then
        a2b rest quadpos leftchar out
      else some out.reverse
    else
      match b64val c with
      | Option.none => a2b rest quadpos leftchar out
      | some v =>
        let bits := leftchar * 64 + v
        if quadpos = 0 then a2b rest 1 bits out
        else if quadpos = 1 then a2b rest 2 (bits % 16) (bits / 16 :: out)
        else if quadpos = 2 then a2b rest 3 (bits % 4) (bits / 4 :: out)
        else a2b rest 0 0 (bits :: out)

/-- The character translation done by `base64.urlsafe_b64decode`. -/
def urlsafeTranslate (c : Char) : Char :=
  if c = '-' then '+' else if c = '_' then '/' else c

/-- `urlsafe_b64decode(f"{payload}===")` exactly as
`RiotAuth.__get_keys_from_access_token` calls it: translate the urlsafe
alphabet, append three pads so unpadded JWT segments decode, and run the
lenient decoder. -/
def urlsafe_b64decode_pad3 (s : PyStr) : Option (List Nat) :=
  a2b ((s ++ pystr "===").map urlsafeTranslate) 0 0 []

/-- Standard padded base64 encoding of a byte list (used only to state what a
"valid padded standard base64" segment is; the engine never encodes). -/
def b64enc (v : Nat) : Char := stdB64Alphabet.getD v 'A'

/-- Standard padded base64 encoding, 3 bytes to 4 characters. -/
def b64encode : List Nat → List Char
  | [] => []
  | [a] => [b64enc (a / 4), b64enc (a % 4 * 16), '=', '=']
  | [a, b] => [b64enc (a / 4), b64enc (a % 4 * 16 + b / 16), b64enc (b % 16 * 4), '=']
  | a :: b :: c :: rest =>
    b64enc (a / 4) :: b64enc (a % 4 * 16 + b / 16) ::
      b64enc (b % 16 * 4 + c / 64) :: b64enc (c % 64) :: b64encode rest

/-- Strict UTF-8 decoding of a byte list (as `bytes.decode("utf-8")`):
rejects truncated sequences, stray continuation bytes, overlong forms and
surrogates. -/
def utf8Decode : List Nat → Option (List Char)
  | [] => some []
  | b :: rest =>
    if b < 0x80 then (utf8Decode rest).map (Char.ofNat b :: ·)
    else if 0xC2 ≤ b ∧ b ≤ 0xDF then
      match rest with
      | b1 :: rest2 =>
        if 0x80 ≤ b1 ∧ b1 ≤ 0xBF then
          (utf8Decode rest2).map (Char.ofNat ((b - 0xC0) * 64 + (b1 - 0x80)) :: ·)
        else Option.none
      | [] => Option.none
    else if 0xE0 ≤ b ∧ b ≤ 0xEF then
      match rest with
      | b1 :: b2 :: rest2 =>
        let lo1 := if b = 0xE0 then 0xA0 else 0x80
        let hi1 := if b = 0xED then 0x9F else 0xBF
        if (lo1 ≤ b1 ∧ b1 ≤ hi1) ∧ (0x80 ≤ b2 ∧ b2 ≤ 0xBF) then
          (utf8Decode rest2).map
            (Char.ofNat ((b - 0xE0) * 4096 + (b1 - 0x80) * 64 + (b2 - 0x80)) :: ·)
        else Option.none
      | _ => Option.none
    else if 0xF0 ≤ b ∧ b ≤ 0xF4 then
      match rest with
      | b1 :: b2 :: b3 :: rest2 =>
        let lo1 := if b = 0xF0 then 0x90 else 0x80
        let hi1 := if b = 0xF4 then 0x8F else 0xBF
        if (lo1 ≤ b1 ∧ b1 ≤ hi1) ∧ (0x80 ≤ b2 ∧ b2 ≤ 0xBF) ∧ (0x80 ≤ b3 ∧ b3 ≤ 0xBF) then
          (utf8Decode rest2).map
            (Char.ofNat ((b - 0xF0) * 262144 + (b1 - 0x80) * 4096 +
              (b2 - 0x80) * 64 + (b3 - 0x80)) :: ·)
        else Option.none
      | _ => Option.none
    else Option.none

/-- JSON whitespace skipping (space, tab, newline, carriage return). -/
def jsonWS (cs : List Char) : List Char :=
  cs.dropWhile (fun c => c = ' ' ∨ c = '\t' ∨ c = '\n' ∨ c = '\r')

/-- Hex digit value. -/
def hexVal (c : Char) : Option Nat :=
  if '0' ≤ c ∧ c ≤ '9' then some (c.toNat - '0'.toNat)
  else if 'a' ≤ c ∧ c ≤ 'f' then some (c.toNat - 'a'.toNat + 10)
  else if 'A' ≤ c ∧ c ≤ 'F' then some (c.toNat - 'A'.toNat + 10)
  else Option.none

/-- JSON string-body parsing (after the opening quote), with the strict-mode
rejection of raw control characters and the standard escapes.  `\uXXXX`
escapes for surrogate code points are not modelled (Lean characters are
unicode scalar values). -/
def parseJString : List Char → Option (PyStr × List Char)
  | [] => Option.none
  | c :: rest =>
    if c = '"' then some ([], rest)
    else if c = '\\' then
      match rest with
      | [] => Option.none
      | 'u' :: h1 :: h2 :: h3 :: h4 :: rest2 =>
        match hexVal h1, hexVal h2, hexVal h3, hexVal h4 with
        | some v1, some v2, some v3, some v4 =>
          let code := v1 * 4096 + v2 * 256 + v3 * 16 + v4
          if 0xD800 ≤ code ∧ code ≤ 0xDFFF then Option.none
          else (parseJString rest2).map (fun p => (Char.ofNat code :: p.1, p.2))
        | _, _, _, _ => Option.none
      | e :: rest2 =>
        let esc : Option Char :=
          if e = '"' then some '"'
          else if e = '\\' then some '\\'
          else if e = '/' then some '/'
          else if e = 'b' then some (Char.ofNat 8)
          else if e = 'f' then some (Char.ofNat 12)
          else if e = 'n' then some '\n'
          else if e = 'r' then some '\r'
          else if e = 't' then some '\t'
          else Option.none
        match esc with
        | some ch => (parseJString rest2).map (fun p => (ch :: p.1, p.2))
        | Option.none => Option.none
    else if c.toNat < 0x20 then Option.none
    else (parseJString rest).map (fun p => (c :: p.1, p.2))

/-- Parse a maximal run of decimal digits, returning value, count, rest. -/
def parseDigits : List Char → Nat → Nat → (Nat × Nat × List Char)
  | [], acc, n => (acc, n, [])
  | c :: rest, acc, n =>
    if '0' ≤ c ∧ c ≤ '9' then parseDigits rest (acc * 10 + (c.toNat - '0'.toNat)) (n + 1)
    else (acc, n, c :: rest)

/-- Parse a JSON number (Python's `NUMBER_RE`: `-?(0|[1-9]\d*)` with optional
fraction and exponent).  Integers become `PyVal.int`; numbers with a fraction
or exponent become the symbolic decimal `PyVal.floatv`. -/
def parseJNumber (cs : List Char) : Option (PyVal × List Char) :=
  let (neg, cs1) :=
    match cs with
    | '-' :: rest => (true, rest)
    | _ => (false, cs)
  match cs1 with
  | c :: _ =>
    if ¬('0' ≤ c ∧ c ≤ '9') then Option.none
    else
      let ip := parseDigits cs1 0 0
      if c = '0' ∧ ip.2.1 ≠ 1 then Option.none
      else
        let intpart := ip.1
        let (hasFrac, fracval, fraclen, cs2) :=
          match ip.2.2 with
          | '.' :: d :: rest =>
            if '0' ≤ d ∧ d ≤ '9' then
              let fp := parseDigits (d :: rest) 0 0
              (true, fp.1, fp.2.1, fp.2.2)
            else (false, 0, 0, ip.2.2)
          | _ => (false, 0, 0, ip.2.2)
        let expPart : Option (Int × List Char) :=
          match cs2 with
          | e :: rest3 =>
            if e = 'e' ∨ e = 'E' then
              match rest3 with
              | '+' :: d :: rest4 =>
                if '0' ≤ d ∧ d ≤ '9' then
                  let ep := parseDigits (d :: rest4) 0 0
                  some ((ep.1 : Int), ep.2.2)
                else Option.none
              | '-' :: d :: rest4 =>
                if '0' ≤ d ∧ d ≤ '9' then
                  let ep := parseDigits (d :: rest4) 0 0
                  some (-(ep.1 : Int), ep.2.2)
                else Option.none
              | d :: rest4 =>
                if '0' ≤ d ∧ d ≤ '9' then
                  let ep := parseDigits (d :: rest4) 0 0
                  some ((ep.1 : Int), ep.2.2)
                else Option.none
              | [] => Option.none
            else Option.none
          | [] => Option.none
        let sign : Int := if neg then -1 else 1
        match expPart with
        | some (ex, rest5) =>
          some (PyVal.floatv (sign * ((intpart * 10 ^ fraclen + fracval : Nat) : Int))
            (ex - (fraclen : Int)), rest5)
        | Option.none =>
          if hasFrac then
            some (PyVal.floatv (sign * ((intpart * 10 ^ fraclen + fracval : Nat) : Int))
              (-(fraclen : Int)), cs2)
          else some (PyVal.int (sign * (intpart : Int)), cs2)
  | [] => Option.none

/-- Does the list start with the given word? -/
def startsWith : List Char → List Char → Bool
  | _, [] => true
  | [], _ :: _ => false
  | c :: rest, w :: ws => c = w && startsWith rest ws

mutual

/-- Recursive-descent JSON value parsing after Python's `json.loads`
(`strict=True` defaults): value, object members, array elements.  The fuel is
an upper bound on nesting depth; `json_loads_bytes` supplies one that cannot
run out.  Objects are built with `dset`, so duplicate keys resolve to the last
occurrence, as `dict(pairs)` does. -/
def parseJValue : Nat → List Char → Option (PyVal × List Char)
  | 0, _ => Option.none
  | _ + 1, [] => Option.none
  | fuel + 1, c :: rest =>
    if c = '"' then (parseJString rest).map (fun p => (PyVal.str p.1, p.2))
    else if c = '{' then
      match jsonWS rest with
      | '}' :: rest2 => some (PyVal.dict [], rest2)
      | rest2 => (parseJMembers fuel rest2 []).map (fun p => (PyVal.dict p.1, p.2))
    else if c = '[' then
      match jsonWS rest with
      | ']' :: rest2 => some (PyVal.list [], rest2)
      | rest2 => (parseJElements fuel rest2).map (fun p => (PyVal.list p.1, p.2))
    else if startsWith (c :: rest) (pystr "null") then
      some (PyVal.none, (c :: rest).drop 4)
    else if startsWith (c :: rest) (pystr "true") then
      some (PyVal.bool true, (c :: rest).drop 4)
    else if startsWith (c :: rest) (pystr "false") then
      some (PyVal.bool false, (c :: rest).drop 5)
    else if startsWith (c :: rest) (pystr "NaN") then
      some (PyVal.nan, (c :: rest).drop 3)
    else if startsWith (c :: rest) (pystr "Infinity") then
      some (PyVal.inf false, (c :: rest).drop 8)
    else if startsWith (c :: rest) (pystr "-Infinity") then
      some (PyVal.inf true, (c :: rest).drop 9)
    else parseJNumber (c :: rest)

/-- Object members: `"key" : value (, "key" : value)*` then `}`. -/
def parseJMembers : Nat → List Char → List (PyStr × PyVal) →
    Option (List (PyStr × PyVal) × List Char)
  | 0, _, _ => Option.none
  | fuel + 1, cs, acc =>
    match cs with
    | '"' :: rest =>
      match parseJString rest with
      | some (key, rest2) =>
        match jsonWS rest2 with
        | ':' :: rest3 =>
          match parseJValue fuel (jsonWS rest3) with
          | some (v, rest4) =>
            match jsonWS rest4 with
            | ',' :: rest5 => parseJMembers fuel (jsonWS rest5) (dset acc key v)
            | '}' :: rest5 => some (dset acc key v, rest5)
            | _ => Option.none
          | Option.none => Option.none
        | _ => Option.none
      | Option.none => Option.none
    | _ => Option.none

/-- Array elements: `value (, value)*` then `]`. -/
def parseJElements : Nat → List Char → Option (List PyVal × List Char)
  | 0, _ => Option.none
  | fuel + 1, cs =>
    match parseJValue fuel cs with
    | some (v, rest) =>
      match jsonWS rest with
      | ',' :: rest2 =>
        (parseJElements fuel (jsonWS rest2)).map (fun p => (v :: p.1, p.2))
      | ']' :: rest2 => some ([v], rest2)
      | _ => Option.none
    | Option.none => Option.none

end

/-- Python `json.loads` applied to a `bytes` value: strip a UTF-8 byte-order
mark if present (`detect_encoding`; UTF-16/32 detection is not modelled),
decode UTF-8, parse one JSON value surrounded by optional whitespace.  A
decoding failure is a `UnicodeDecodeError`, a parse failure a
`json.JSONDecodeError`. -/
def json_loads_bytes (bs : List Nat) : Except PyError PyVal :=
  let bs2 := if bs.take 3 = [0xEF, 0xBB, 0xBF] then bs.drop 3 else bs
  match utf8Decode bs2 with
  | Option.none => .error .unicodeDecodeError
  | some cs =>
    match parseJValue (cs.length + 1) (jsonWS cs) with
    | some (v, rest) => if jsonWS rest = [] then .ok v else .error .jsonDecodeError
    | Option.none => .error .jsonDecodeError

/-- The replacement character, for `errors="replace"` decoding. -/
def replChar : Char := Char.ofNat 0xFFFD

/-- Lenient UTF-8 decoding with `errors="replace"`: invalid or truncated
sequences yield replacement characters (one per skipped leading byte, a mild
approximation of CPython's maximal-subpart rule) and decoding continues.
Written with explicit fuel so that it reduces by iota in the kernel. -/
def utf8DecodeReplaceFuel : Nat → List Nat → List Char
  | 0, _ => []
  | _ + 1, [] => []
  | fuel + 1, b :: rest =>
    if b < 0x80 then Char.ofNat b :: utf8DecodeReplaceFuel fuel rest
    else if 0xC2 ≤ b ∧ b ≤ 0xDF then
      match rest with
      | b1 :: rest2 =>
        if 0x80 ≤ b1 ∧ b1 ≤ 0xBF then
          Char.ofNat ((b - 0xC0) * 64 + (b1 - 0x80)) :: utf8DecodeReplaceFuel fuel rest2
        else replChar :: utf8DecodeReplaceFuel fuel (b1 :: rest2)
      | [] => [replChar]
    else if 0xE0 ≤ b ∧ b ≤ 0xEF then
      match rest with
      | b1 :: b2 :: rest2 =>
        let lo1 := if b = 0xE0 then 0xA0 else 0x80
        let hi1 := if b = 0xED then 0x9F else 0xBF
        if (lo1 ≤ b1 ∧ b1 ≤ hi1) ∧ (0x80 ≤ b2 ∧ b2 ≤ 0xBF) then
          Char.ofNat ((b - 0xE0) * 4096 + (b1 - 0x80) * 64 + (b2 - 0x80)) ::
            utf8DecodeReplaceFuel fuel rest2
        else replChar :: utf8DecodeReplaceFuel fuel (b1 :: b2 :: rest2)
      | [b1] => replChar :: utf8DecodeReplaceFuel fuel [b1]
      | [] => [replChar]
    else if 0xF0 ≤ b ∧ b ≤ 0xF4 then
      match rest with
      | b1 :: b2 :: b3 :: rest2 =>
        let lo1 := if b = 0xF0 then 0x90 else 0x80
        let hi1 := if b = 0xF4 then 0x8F else 0xBF
        if (lo1 ≤ b1 ∧ b1 ≤ hi1) ∧ (0x80 ≤ b2 ∧ b2 ≤ 0xBF) ∧ (0x80 ≤ b3 ∧ b3 ≤ 0xBF) then
          Char.ofNat ((b - 0xF0) * 262144 + (b1 - 0x80) * 4096 +
            (b2 - 0x80) * 64 + (b3 - 0x80)) :: utf8DecodeReplaceFuel fuel rest2
        else replChar :: utf8DecodeReplaceFuel fuel (b1 :: b2 :: b3 :: rest2)
      | [b1, b2] => replChar :: utf8DecodeReplaceFuel fuel [b1, b2]
      | [b1] => replChar :: utf8DecodeReplaceFuel fuel [b1]
      | [] => [replChar]
    else replChar :: utf8DecodeReplaceFuel fuel rest

/-- Lenient UTF-8 with `errors="replace"` again, at the fuel that always
suffices (every step consumes at least one byte, so `length` fuel can never
run out). -/
def utf8DecodeReplace (bs : List Nat) : List Char :=
  utf8DecodeReplaceFuel bs.length bs

/-- `urllib.parse.unquote` with UTF-8/`replace`: each maximal run of `%XX`
escapes is percent-decoded to bytes and UTF-8-decoded leniently; a `%` not
followed by two hex digits stays literal.  `buf` accumulates the byte run in
reverse. -/
def unquoteAux : List Char → List Nat → List Char
  | [], buf => utf8DecodeReplace buf.reverse
  | '%' :: h1 :: h2 :: rest, buf =>
    match hexVal h1, hexVal h2 with
    | some a, some b => unquoteAux rest ((a * 16 + b) :: buf)
    | _, _ => utf8DecodeReplace buf.reverse ++ '%' :: unquoteAux (h1 :: h2 :: rest) []
  | c :: rest, buf => utf8DecodeReplace buf.reverse ++ c :: unquoteAux rest []

/-- `unquote(s.replace("+", " "))` as `parse_qsl` applies it to each field. -/
def unquotePlus (s : PyStr) : PyStr :=
  unquoteAux (s.map (fun c => if c = '+' then ' ' else c)) []

/-- Python `str.split(sep)` for a one-character separator: split at every
occurrence, no collapsing, so the empty string yields `[""]`. -/
def splitOnChar (sep : Char) : List Char → List PyStr
  | [] => [[]]
  | c :: rest =>
    if c = sep then [] :: splitOnChar sep rest
    else
      match splitOnChar sep rest with
      | s :: ss => (c :: s) :: ss
      | [] => [[c]]

/-- Split at the first occurrence of a separator (`str.split(sep, 1)` /
`str.partition`), or none when absent. -/
def splitFirst : List Char → Char → Option (PyStr × PyStr)
  | [], _ => Option.none
  | c :: rest, sep =>
    if c = sep then some ([], rest)
    else (splitFirst rest sep).map (fun p => (c :: p.1, p.2))

/-- `urllib.parse.parse_qsl` with its defaults (`keep_blank_values=False`,
`strict_parsing=False`, separator `&`): empty fields, fields without `=` and
fields with an empty value are silently dropped; names and values are
plus-and-percent unquoted. -/
def parse_qsl (qs : PyStr) : List (PyStr × PyStr) :=
  (splitOnChar '&' qs).flatMap (fun nv =>
    if nv = [] then []
    else
      match splitFirst nv '=' with
      | Option.none => []
      | some (name, value) =>
        if value = [] then []
        else [(unquotePlus name, unquotePlus value)])

/-- The result of `urllib.parse.urlsplit`, as its five stored components.
The derived properties (`hostname`, `port`, ...) are not modelled. -/
structure SplitResult where
  scheme : PyStr
  netloc : PyStr
  path : PyStr
  query : PyStr
  fragment : PyStr
deriving DecidableEq, Repr

/-- Characters allowed after the first in a URL scheme. -/
def schemeChar (c : Char) : Bool := c.isAlpha ∨ c.isDigit ∨ c = '+' ∨ c = '-' ∨ c = '.'

/-- `urllib.parse.urlsplit`: remove the unsafe bytes tab/CR/LF, split off a
valid scheme (lower-cased), a `//`-introduced netloc (up to the first `/`,
`?` or `#`), then the fragment after the first `#`, then the query after the
first `?`.  The bracket-validation `ValueError` for IPv6 netlocs is not
modelled. -/
def urlsplit (url0 : PyStr) : SplitResult :=
  let url := url0.filter (fun c => c ≠ '\t' ∧ c ≠ '\r' ∧ c ≠ '\n')
  let schemeSplit : PyStr × PyStr :=
    match splitFirst url ':' with
    | some (before, after) =>
      if before ≠ [] ∧ (match before with
          | c :: _ => c.isAlpha
          | [] => false) = true ∧ before.all schemeChar then
        (before.map Char.toLower, after)
      else ([], url)
    | Option.none => ([], url)
  let scheme := schemeSplit.1
  let url1 := schemeSplit.2
  let netlocSplit : PyStr × PyStr :=
    if url1.take 2 = pystr "//" then
      let rest := url1.drop 2
      (rest.takeWhile (fun c => c ≠ '/' ∧ c ≠ '?' ∧ c ≠ '#'),
       rest.dropWhile (fun c => c ≠ '/' ∧ c ≠ '?' ∧ c ≠ '#'))
    else ([], url1)
  let netloc := netlocSplit.1
  let url2 := netlocSplit.2
  let fragSplit : PyStr × PyStr :=
    match splitFirst url2 '#' with
    | some p => p
    | Option.none => (url2, [])
  let url3 := fragSplit.1
  let fragment := fragSplit.2
  let querySplit : PyStr × PyStr :=
    match splitFirst url3 '?' with
    | some p => p
    | Option.none => (url3, [])
  ⟨scheme, netloc, querySplit.1, querySplit.2, fragment⟩

/-- `getattr(split_result, mode)` for the component names the result object
stores; any other attribute name fails (the derived properties such as
`hostname` are not modelled). -/
def splitResultAttr (r : SplitResult) (mode : PyStr) : Except PyError PyStr :=
  if mode = pystr "scheme" then .ok r.scheme
  else if mode = pystr "netloc" then .ok r.netloc
  else if mode = pystr "path" then .ok r.path
  else if mode = pystr "query" then .ok r.query
  else if mode = pystr "fragment" then .ok r.fragment
  else .error .attributeError

/-- `":".join(parts)`. -/
def joinColon : List PyStr → PyStr
  | [] => []
  | [s] => s
  | s :: rest => s ++ ':' :: joinColon rest

/-- `RiotAuth.CIPHERS13`: the TLS 1.3 suites, in source order. -/
def RiotAuth.CIPHERS13 : PyStr :=
  joinColon
    [ pystr "TLS_CHACHA20_POLY1305_SHA256",
      pystr "TLS_AES_128_GCM_SHA256",
      pystr "TLS_AES_256_GCM_SHA384" ]

/-- `RiotAuth.CIPHERS`: the pre-TLS-1.3 cipher list, in source order. -/
def RiotAuth.CIPHERS : PyStr :=
  joinColon
    [ pystr "ECDHE-ECDSA-CHACHA20-POLY1305",
      pystr "ECDHE-RSA-CHACHA20-POLY1305",
      pystr "ECDHE-ECDSA-AES128-GCM-SHA256",
      pystr "ECDHE-RSA-AES128-GCM-SHA256",
      pystr "ECDHE-ECDSA-AES256-GCM-SHA384",
      pystr "ECDHE-RSA-AES256-GCM-SHA384",
      pystr "ECDHE-ECDSA-AES128-SHA",
      pystr "ECDHE-RSA-AES128-SHA",
      pystr "ECDHE-ECDSA-AES256-SHA",
      pystr "ECDHE-RSA-AES256-SHA",
      pystr "AES128-GCM-SHA256",
      pystr "AES256-GCM-SHA384",
      pystr "AES128-SHA",
      pystr "AES256-SHA",
      pystr "DES-CBC3-SHA" ]

/-- `RiotAuth.SIGALGS`: the signature-algorithm list, in source order. -/
def RiotAuth.SIGALGS : PyStr :=
  joinColon
    [ pystr "ecdsa_secp256r1_sha256",
      pystr "rsa_pss_rsae_sha256",
      pystr "rsa_pkcs1_sha256",
      pystr "ecdsa_secp384r1_sha384",
      pystr "rsa_pss_rsae_sha384",
      pystr "rsa_pkcs1_sha384",
      pystr "rsa_pss_rsae_sha512",
      pystr "rsa_pkcs1_sha512",
      pystr "rsa_pkcs1_sha1" ]

/-- The platform branch taken in `create_riot_auth_ssl_ctx` (`sys.platform`). -/
inductive Platform where
  | win32
  | linux
  | darwin
  | other
deriving DecidableEq, Repr

/-- `SSL_OP_NO_ENCRYPT_THEN_MAC`, the option bit `1 << 19` that the source
sets to disable the encrypt-then-MAC extension. -/
def SSL_OP_NO_ENCRYPT_THEN_MAC : Nat := 1 <<< 19

/-- `RiotAuth.create_riot_auth_ssl_ctx`.  `default_options` stands for the
option bits `ssl.create_default_context()` starts with (they vary by
Python/OpenSSL build; the function only ever adds bit 19).  On an unsupported
platform the `ctypes.CDLL` lookup is never reached and `NotImplementedError`
is raised; on the three supported platforms the libssl handle only differs in
how it is obtained, the parameters applied are identical.  Fields in order:
minimum version, ALPN, options, TLS 1.3 suites, cipher list, sigalgs list. -/
def RiotAuth.create_riot_auth_ssl_ctx (platform : Platform) (default_options : Nat) :
    Except PyError SSLContext :=
  match platform with
  | .other => .error .notImplementedError
  | _ =>
    .ok ⟨TLSVersion.TLSv1, [pystr "http/1.1"],
      default_options ||| SSL_OP_NO_ENCRYPT_THEN_MAC,
      RiotAuth.CIPHERS13, RiotAuth.CIPHERS, RiotAuth.SIGALGS⟩

/-- The attribute name of the private cookie-jar slot. -/
def cookieJarKey : PyStr := pystr "_cookie_jar"

/-- `RiotAuth.__init__`: the instance `__dict__` right after construction, in
attribute insertion order.  The fresh `aiohttp.CookieJar()` is empty. -/
def RiotAuth.init (ctx : SSLContext) : Dict :=
  [ (pystr "_auth_ssl_ctx", PyVal.sslctx ctx),
    (pystr "_cookie_jar", PyVal.jar []),
    (pystr "access_token", PyVal.none),
    (pystr "scope", PyVal.none),
    (pystr "id_token", PyVal.none),
    (pystr "token_type", PyVal.none),
    (pystr "expires_at", PyVal.int 0),
    (pystr "user_id", PyVal.none),
    (pystr "entitlements_token", PyVal.none),
    (pystr "accdict", PyVal.none) ]

/-- The cookie jar currently stored on the instance. -/
def jarOf (self : Dict) : Jar :=
  match dlookup cookieJarKey self with
  | some (PyVal.jar j) => j
  | _ => []

/-- Python `obj[key]` on a JSON value: dict lookup (`KeyError` when absent),
`TypeError` when the value is not a dict. -/
def pyGetItem (v : PyVal) (k : PyStr) : Except PyError PyVal :=
  match v with
  | PyVal.dict m =>
    match dlookup k m with
    | some x => .ok x
    | Option.none => .error (.keyError k)
  | _ => .error .typeError

/-- Python `obj.get(key)` (default `None`); `AttributeError` when the value
is not a dict. -/
def pyDictGet (v : PyVal) (k : PyStr) : Except PyError PyVal :=
  match v with
  | PyVal.dict m => .ok ((dlookup k m).getD PyVal.none)
  | _ => .error .attributeError

/-- Python `value == "literal"` for an arbitrary value against a string:
true exactly for an equal string (no `__eq__` overloads are in play). -/
def isStrEq (v : PyVal) (s : PyStr) : Bool :=
  match v with
  | PyVal.str t => t = s
  | _ => false

/-- The default `key_attr_pairs` of `RiotAuth.__update`:
`(("sub", "user_id"), ("exp", "expires_at"))`. -/
def default_key_attr_pairs : List (PyStr × PyStr) :=
  [(pystr "sub", pystr "user_id"), (pystr "exp", pystr "expires_at")]

/-- `RiotAuth.__get_keys_from_access_token`: split the access token on `.`,
take segment 1 (`IndexError` when absent), `urlsafe_b64decode` it with three
pads appended (`binascii.Error` on bad padding), `json.loads` the bytes, and
return `[(attr, payload.get(key))]` for each requested pair.  Reading
`.split` off a non-string (for instance the initial `None`) is an
`AttributeError`, as is `.get` on a non-dict payload. -/
def RiotAuth.get_keys_from_access_token (self : Dict)
    (key_attr_pairs : List (PyStr × PyStr)) : Except PyError (List (PyStr × PyVal)) :=
  match dlookup (pystr "access_token") self with
  | some (PyVal.str tok) =>
    match (splitOnChar '.' tok).get? 1 with
    | Option.none => .error .indexError
    | some payload =>
      match urlsafe_b64decode_pad3 payload with
      | Option.none => .error .binasciiError
      | some bytes =>
        match json_loads_bytes bytes with
        | .error e => .error e
        | .ok (PyVal.dict m) =>
          .ok (key_attr_pairs.map (fun ka => (ka.2, (dlookup ka.1 m).getD PyVal.none)))
        | .ok _ => .error .attributeError
  | _ => .error .attributeError

/-- The allow-list of `RiotAuth.__update`: the keys of `self.__dict__` whose
first character is not `_`.  (Python's `key[0]` would raise on an empty
attribute name; no attribute of this class is empty, so the total `head?`
reading is used.) -/
def predefined_keys (self : Dict) : List PyStr :=
  (self.map Prod.fst).filter (fun k => k.head? ≠ some '_')

/-- `RiotAuth.__update`: merge only kwargs whose key is in the allow-list
computed at entry; when `extract_jwt` is set, additionally decode the (just
updated) access token's claims and merge those pairs under the same
allow-list.  On a decoding failure the kwargs merge has already happened and
the error propagates. -/
def RiotAuth.update (self : Dict) (extract_jwt : Bool)
    (key_attr_pairs : List (PyStr × PyStr)) (kwargs : List (PyStr × PyVal)) :
    Dict × Option PyError :=
  let pk := predefined_keys self
  let d1 := dictUpdate self (kwargs.filter (fun p => decide (p.1 ∈ pk)))
  if extract_jwt then
    match RiotAuth.get_keys_from_access_token d1 key_attr_pairs with
    | .error e => (d1, some e)
    | .ok additional =>
      (dictUpdate d1 (additional.filter (fun p => decide (p.1 ∈ pk))), Option.none)
  else (d1, Option.none)

/-- `RiotAuth.__set_tokens_from_uri`: read `data["response"]["mode"]` and
`data["response"]["parameters"]["uri"]`, take the named component of the
split URI, parse it as a query string, build a dict from the pairs, and merge
with `extract_jwt=True`. -/
def RiotAuth.set_tokens_from_uri (self : Dict) (data : PyVal) : Dict × Option PyError :=
  match pyGetItem data (pystr "response") with
  | .error e => (self, some e)
  | .ok resp =>
    match pyGetItem resp (pystr "mode") with
    | .error e => (self, some e)
    | .ok mode =>
      match pyGetItem resp (pystr "parameters") with
      | .error e => (self, some e)
      | .ok params =>
        match pyGetItem params (pystr "uri") with
        | .error e => (self, some e)
        | .ok uri =>
          match mode, uri with
          | PyVal.str ms, PyVal.str us =>
            match splitResultAttr (urlsplit us) ms with
            | .error e => (self, some e)
            | .ok result =>
              let kwargs :=
                dictUpdate [] ((parse_qsl result).map (fun p => (p.1, PyVal.str p.2)))
              RiotAuth.update self true default_key_attr_pairs kwargs
          | _, _ => (self, some .typeError)

/-- The environment of one authorization run: the JSON payload each endpoint
answers with and how each response updates the shared cookie jar, plus the
multifactor code read from the external input source.  Responses are fixed
data: the request bodies and headers the source builds (lines 175–247) do not
influence the engine's own state, so they are not tracked.
`raise_for_status=True` HTTP failures are outside this model (the
environment always yields a payload). -/
structure Env where
  post_auth : PyVal
  post_auth_cookies : Jar → Jar
  put_auth : PyVal
  put_auth_cookies : Jar → Jar
  mfa_input : PyStr
  put_mfa : PyVal
  put_mfa_cookies : Jar → Jar
  entitlements : PyVal
  entitlements_cookies : Jar → Jar

/-- Lines 168–169 of `authorize`: `if username and password:
self._cookie_jar.clear()` — non-empty credentials empty the jar before any
request is made; otherwise the instance is untouched. -/
def RiotAuth.authorize_clear_step (self : Dict) (username password : PyStr) : Dict :=
  if username ≠ [] ∧ password ≠ [] then dset self cookieJarKey (PyVal.jar []) else self

/-- Lines 205–257 of `authorize`: the credential-submission branch.  `t0` is
the initial response's `type` and `data0` the initial response; when `t0` is
already `"response"` (the cookie-reauthentication shortcut) no credential
request is sent.  Otherwise the PUT response's `type` branches exactly as in
the source; the multifactor sub-branch submits the externally supplied code
and, on `error == "multifactor_attempt_failed"`, evaluates the undefined name
`RiotMultifactorAttemptError`, which in Python raises a `NameError`.  Returns
the payload that flows to token extraction together with the session's
cookie jar. -/
def RiotAuth.credentialStage (t0 : PyVal) (data0 : PyVal) (env : Env) (jar : Jar) :
    Except PyError (PyVal × Jar) :=
  if isStrEq t0 (pystr "response") then .ok (data0, jar)
  else
    let data := env.put_auth
    let jar1 := env.put_auth_cookies jar
    match pyGetItem data (pystr "type") with
    | .error e => .error e
    | .ok t =>
      if isStrEq t (pystr "response") then .ok (data, jar1)
      else if isStrEq t (pystr "auth") then
        match pyDictGet data (pystr "error") with
        | .error e => .error e
        | .ok err =>
          if isStrEq err (pystr "auth_failure") then .error .riotAuthenticationError
          else if isStrEq err (pystr "rate_limited") then .error .riotRatelimitError
          else .error .riotUnknownErrorTypeError
      else if isStrEq t (pystr "multifactor") then
        let _code := env.mfa_input
        let data2 := env.put_mfa
        let jar2 := env.put_mfa_cookies jar1
        match data2 with
        | PyVal.dict m =>
          if (dlookup (pystr "error") m).isSome &&
              isStrEq ((dlookup (pystr "error") m).getD PyVal.none)
                (pystr "multifactor_attempt_failed") then
            .error (.nameError (pystr "RiotMultifactorAttemptError"))
          else .ok (data2, jar2)
        | _ => .error .attributeError
      else .error .riotUnknownResponseTypeError

/-- Lines 264–281 of `authorize`: store the entitlements token from the
entitlements response, then build and store `accdict` from the seven session
fields.  (The `Authorization` header is an f-string over `token_type` and
`access_token` and cannot fail; the `accountData.json` write is a filesystem
effect outside the model.) -/
def RiotAuth.entitlementsStage (self : Dict) (env : Env) : Dict × Option PyError :=
  match pyGetItem env.entitlements (pystr "entitlements_token") with
  | .error e => (self, some e)
  | .ok v =>
    let d1 := dset self (pystr "entitlements_token") v
    let acc := PyVal.dict
      [ (pystr "AccessToken", (dlookup (pystr "access_token") d1).getD PyVal.none),
        (pystr "Scope", (dlookup (pystr "scope") d1).getD PyVal.none),
        (pystr "IDToken", (dlookup (pystr "id_token") d1).getD PyVal.none),
        (pystr "TokenType", (dlookup (pystr "token_type") d1).getD PyVal.none),
        (pystr "ExpiresAt", (dlookup (pystr "expires_at") d1).getD PyVal.none),
        (pystr "UserID", (dlookup (pystr "user_id") d1).getD PyVal.none),
        (pystr "EntitlementsToken", (dlookup (pystr "entitlements_token") d1).getD PyVal.none) ]
    (dset d1 (pystr "accdict") acc, Option.none)

/-- `authorize` after the cookie-clearing guard: send the initiation request,
read `data["type"]`, run the credential branch, store the session's jar back
on the instance (line 261), extract tokens from the redirect payload, then
exchange for the entitlements token.  On a raise the instance as mutated so
far is returned with the error. -/
def RiotAuth.authorize_body (self : Dict) (use_query_response_mode : Bool) (env : Env) :
    Dict × Option PyError :=
  let _ := use_query_response_mode
  let jar0 := jarOf self
  let data0 := env.post_auth
  let jar1 := env.post_auth_cookies jar0
  match pyGetItem data0 (pystr "type") with
  | .error e => (self, some e)
  | .ok t0 =>
    match RiotAuth.credentialStage t0 data0 env jar1 with
    | .error e => (self, some e)
    | .ok (data, jar2) =>
      let self2 := dset self cookieJarKey (PyVal.jar jar2)
      match RiotAuth.set_tokens_from_uri self2 data with
      | (d, some e) => (d, some e)
      | (d, Option.none) => RiotAuth.entitlementsStage d env

/-- `RiotAuth.authorize`: clear the cookie jar when both credentials are
non-empty, then run the request sequence. -/
def RiotAuth.authorize (self : Dict) (username password : PyStr)
    (use_query_response_mode : Bool) (env : Env) : Dict × Option PyError :=
  RiotAuth.authorize_body (RiotAuth.authorize_clear_step self username password)
    use_query_response_mode env

/-- `RiotAuth.reauthorize`: run `authorize("", "")`; `True` on success,
`False` exactly on `RiotAuthenticationError`, every other raise propagates. -/
def RiotAuth.reauthorize (self : Dict) (env : Env) : Dict × Except PyError Bool :=
  match RiotAuth.authorize self [] [] false env with
  | (d, Option.none) => (d, .ok true)
  | (d, some e) => if e = .riotAuthenticationError then (d, .ok false) else (d, .error e)

/-- Modelled from the spec: the `MalformedTokenError` kind of §7 ("token
claims undecodable") names the decoding failures the token extractor can
raise — bad base64 padding, undecodable bytes, or unparsable JSON. -/
def IsMalformedTokenError (e : PyError) : Prop :=
  e = PyError.binasciiError ∨ e = PyError.unicodeDecodeError ∨ e = PyError.jsonDecodeError

/-- The four errors the credential-submission branch of `authorize` can
raise. -/
def credential_stage_errors : List PyError :=
  [ PyError.riotAuthenticationError, PyError.riotRatelimitError,
    PyError.riotUnknownErrorTypeError, PyError.riotUnknownResponseTypeError ]

/-- The seven token-related session fields of §3 of the spec. -/
def token_fields : List PyStr :=
  [ pystr "access_token", pystr "scope", pystr "id_token", pystr "token_type",
    pystr "expires_at", pystr "user_id", pystr "entitlements_token" ]

/-- The attribute value is a non-empty string. -/
def isNonEmptyStr : Option PyVal → Bool
  | some (PyVal.str s) => decide (s ≠ [])
  | _ => false

/-- The §3 session invariant: once `access_token` is set (non-empty),
`token_type` is set (non-empty) too. -/
def token_type_invariant (d : Dict) : Prop :=
  isNonEmptyStr (dlookup (pystr "access_token") d) = true →
    isNonEmptyStr (dlookup (pystr "token_type") d) = true

/-- A concrete SSL context for witness instances. -/
def sampleCtx : SSLContext := ⟨TLSVersion.TLSv1, [], 0, [], [], []⟩

/-- A freshly constructed instance, for witness instances. -/
def sampleSelf : Dict := RiotAuth.init sampleCtx

/-- An environment none of whose payloads is ever consulted. -/
def envTrivial : Env :=
  ⟨PyVal.none, id, PyVal.none, id, [], PyVal.none, id, PyVal.none, id⟩

/-- An environment whose initiation response requires credentials and whose
credential response reports `auth_failure`. -/
def envAuthFailure : Env :=
  ⟨PyVal.dict [(pystr "type", PyVal.str (pystr "auth"))], id,
   PyVal.dict [(pystr "type", PyVal.str (pystr "auth")),
     (pystr "error", PyVal.str (pystr "auth_failure"))], id,
   [], PyVal.none, id, PyVal.none, id⟩

/-- An environment that requires credentials, then answers the credential
submission with a multifactor challenge, then reports
`multifactor_attempt_failed` for the submitted code. -/
def envMfaFailed : Env :=
  ⟨PyVal.dict [(pystr "type", PyVal.str (pystr "auth"))], id,
   PyVal.dict [(pystr "type", PyVal.str (pystr "multifactor"))], id,
   pystr "123456",
   PyVal.dict [(pystr "error", PyVal.str (pystr "multifactor_attempt_failed"))], id,
   PyVal.none, id⟩

/-- A JWT-shaped access token whose middle segment is the padded standard
base64 encoding of `{"sub":"a","exp":1}`. -/
def sampleToken : PyStr := pystr "x.eyJzdWIiOiJhIiwiZXhwIjoxfQ==.y"

/-- The bytes of `{"sub":"a","exp":1}` (ASCII codes). -/
def sampleClaims : List Nat :=
  [123, 34, 115, 117, 98, 34, 58, 34, 97, 34, 44, 34, 101, 120, 112, 34, 58, 49, 125]

/-- A token whose middle segment holds no base64 data at all, so the decoded
payload is empty and JSON parsing fails. -/
def badToken : PyStr := pystr "a.!!!.b"

/-- A redirect payload whose fragment carries an access token but no
`token_type`. -/
def c9Payload : PyVal :=
  PyVal.dict
    [ (pystr "type", PyVal.str (pystr "response")),
      (pystr "response", PyVal.dict
        [ (pystr "mode", PyVal.str (pystr "fragment")),
          (pystr "parameters", PyVal.dict
            [(pystr "uri", PyVal.str (pystr "http://localhost/redirect#access_token=x.eyJzdWIiOiJhIiwiZXhwIjoxfQ.y"))]) ]) ]

/-- The negotiation parameters claimed for the TLS profile: the three TLS 1.3
suites in order, the fixed 15-entry pre-1.3 cipher list, the fixed 9-entry
signature-algorithm list ending in `rsa_pkcs1_sha1`, ALPN `http/1.1` only,
minimum version TLS 1.0, and the `SSL_OP_NO_ENCRYPT_THEN_MAC` bit (bit 19)
set, which disables the encrypt-then-MAC extension. -/
def TlsProfileSpec (ctx : SSLContext) : Prop :=
  splitOnChar ':' ctx.ciphersuites =
    [ pystr "TLS_CHACHA20_POLY1305_SHA256", pystr "TLS_AES_128_GCM_SHA256",
      pystr "TLS_AES_256_GCM_SHA384" ] ∧
  splitOnChar ':' ctx.cipher_list =
    [ pystr "ECDHE-ECDSA-CHACHA20-POLY1305",
      pystr "ECDHE-RSA-CHACHA20-POLY1305",
      pystr "ECDHE-ECDSA-AES128-GCM-SHA256",
      pystr "ECDHE-RSA-AES128-GCM-SHA256",
      pystr "ECDHE-ECDSA-AES256-GCM-SHA384",
      pystr "ECDHE-RSA-AES256-GCM-SHA384",
      pystr "ECDHE-ECDSA-AES128-SHA",
      pystr "ECDHE-RSA-AES128-SHA",
      pystr "ECDHE-ECDSA-AES256-SHA",
      pystr "ECDHE-RSA-AES256-SHA",
      pystr "AES128-GCM-SHA256",
      pystr "AES256-GCM-SHA384",
      pystr "AES128-SHA",
      pystr "AES256-SHA",
      pystr "DES-CBC3-SHA" ] ∧
  (splitOnChar ':' ctx.cipher_list).length = 15 ∧
  splitOnChar ':' ctx.sigalgs_list =
    [ pystr "ecdsa_secp256r1_sha256",
      pystr "rsa_pss_rsae_sha256",
      pystr "rsa_pkcs1_sha256",
      pystr "ecdsa_secp384r1_sha384",
      pystr "rsa_pss_rsae_sha384",
      pystr "rsa_pkcs1_sha384",
      pystr "rsa_pss_rsae_sha512",
      pystr "rsa_pkcs1_sha512",
      pystr "rsa_pkcs1_sha1" ] ∧
  (splitOnChar ':' ctx.sigalgs_list).length = 9 ∧
  (splitOnChar ':' ctx.sigalgs_list).getLast? = some (pystr "rsa_pkcs1_sha1") ∧
  ctx.alpn_protocols = [pystr "http/1.1"] ∧
  ctx.minimum_version = TLSVersion.TLSv1 ∧
  ctx.options.testBit 19 = true

theorem dlookup_dset_self (d : Dict) (k : PyStr) (v : PyVal) :
    dlookup k (dset d k v) = some v := by
  induction d with
  | nil => simp [dset, dlookup]
  | cons p rest ih =>
    by_cases h : p.1 = k
    · simp [dset, h, dlookup]
    · simp [dset, h, dlookup, ih]

theorem dlookup_dset_ne (d : Dict) (k k' : PyStr) (v : PyVal) (h : k' ≠ k) :
    dlookup k (dset d k' v) = dlookup k d := by
  induction d with
  | nil => simp only [dset, dlookup, if_neg h]
  | cons p rest ih =>
    by_cases hp : p.1 = k'
    · simp only [dset, if_pos hp, dlookup, hp, if_neg h]
    · simp only [dset, if_neg hp, dlookup]
      by_cases hk : p.1 = k
      · simp only [if_pos hk]
      · simp only [if_neg hk]
        exact ih

theorem dlookup_dictUpdate (d : Dict) (l : List (PyStr × PyVal)) (k : PyStr) :
    dlookup k (dictUpdate d l) =
      match lastVal k l with
      | some v => some v
      | Option.none => dlookup k d := by
  induction l generalizing d with
  | nil => simp [dictUpdate, lastVal]
  | cons p rest ih =>
    show dlookup k (dictUpdate (dset d p.1 p.2) rest) = _
    rw [ih]
    rcases hrest : lastVal k rest with _ | v
    · by_cases h : p.1 = k
      · subst h
        simp [lastVal, hrest, dlookup_dset_self]
      · simp [lastVal, hrest, h, dlookup_dset_ne d k p.1 p.2 h]
    · simp [lastVal, hrest]

theorem lastVal_none_of_not_mem (l : List (PyStr × PyVal)) (k : PyStr)
    (h : k ∉ l.map Prod.fst) : lastVal k l = Option.none := by
  induction l with
  | nil => rfl
  | cons p rest ih =>
    simp only [List.map_cons, List.mem_cons] at h
    push_neg at h
    show (match lastVal k rest with
      | some v => some v
      | Option.none => if p.1 = k then some p.2 else Option.none) = Option.none
    rw [ih h.2]
    exact if_neg (fun he => h.1 he.symm)


theorem dlookup_clear_step (self : Dict) (u p k : PyStr) (hk : k ≠ cookieJarKey) :
    dlookup k (RiotAuth.authorize_clear_step self u p) = dlookup k self := by
  unfold RiotAuth.authorize_clear_step
  split_ifs with h
  · exact dlookup_dset_ne self k cookieJarKey (PyVal.jar []) (Ne.symm hk)
  · rfl

theorem pyGetItem_error_kinds (v : PyVal) (k : PyStr) (e : PyError)
    (h : pyGetItem v k = .error e) : e = PyError.keyError k ∨ e = PyError.typeError := by
  unfold pyGetItem at h
  split at h
  · split at h
    · simp at h
    · exact Or.inl (Except.error.inj h).symm
  · exact Or.inr (Except.error.inj h).symm

theorem json_loads_error_kinds (bs : List Nat) (e : PyError)
    (h : json_loads_bytes bs = .error e) :
    e = PyError.unicodeDecodeError ∨ e = PyError.jsonDecodeError := by
  unfold json_loads_bytes at h
  dsimp only at h
  split at h
  · exact Or.inl (Except.error.inj h).symm
  · split at h
    · split at h
      · simp at h
      · exact Or.inr (Except.error.inj h).symm
    · exact Or.inr (Except.error.inj h).symm

theorem splitResultAttr_error_kinds (r : SplitResult) (mode : PyStr) (e : PyError)
    (h : splitResultAttr r mode = .error e) : e = PyError.attributeError := by
  unfold splitResultAttr at h
  split_ifs at h
  exact (Except.error.inj h).symm

theorem get_keys_error_kinds (self : Dict) (pairs : List (PyStr × PyStr)) (e : PyError)
    (h : RiotAuth.get_keys_from_access_token self pairs = .error e) :
    e = PyError.attributeError ∨ e = PyError.indexError ∨ e = PyError.binasciiError ∨
      e = PyError.unicodeDecodeError ∨ e = PyError.jsonDecodeError := by
  unfold RiotAuth.get_keys_from_access_token at h
  split at h
  · split at h
    · exact Or.inr (Or.inl (Except.error.inj h).symm)
    · split at h
      · exact Or.inr (Or.inr (Or.inl (Except.error.inj h).symm))
      · split at h
        · rename_i e0 heq
          have := json_loads_error_kinds _ _ heq
          rcases this with h1 | h1 <;> rw [← (Except.error.inj h), h1]
          · exact Or.inr (Or.inr (Or.inr (Or.inl rfl)))
          · exact Or.inr (Or.inr (Or.inr (Or.inr rfl)))
        · simp at h
        · exact Or.inl (Except.error.inj h).symm
  · exact Or.inl (Except.error.inj h).symm

theorem update_error_kinds (self : Dict) (ej : Bool) (pairs : List (PyStr × PyStr))
    (kwargs : List (PyStr × PyVal)) (e : PyError)
    (h : (RiotAuth.update self ej pairs kwargs).2 = some e) :
    e = PyError.attributeError ∨ e = PyError.indexError ∨ e = PyError.binasciiError ∨
      e = PyError.unicodeDecodeError ∨ e = PyError.jsonDecodeError := by
  unfold RiotAuth.update at h
  dsimp only at h
  split at h
  · split at h
    · rename_i e0 heq
      dsimp only at h
      rw [← Option.some.inj h]
      exact get_keys_error_kinds _ _ _ heq
    · simp at h
  · simp at h

theorem set_tokens_error_kinds (self : Dict) (data : PyVal) (d : Dict) (e : PyError)
    (h : RiotAuth.set_tokens_from_uri self data = (d, some e)) :
    e ∉ credential_stage_errors := by
  unfold RiotAuth.set_tokens_from_uri at h
  split at h
  · rename_i e1 heq
    obtain ⟨rfl, he⟩ := Prod.mk.injEq _ _ _ _ |>.mp h
    obtain rfl := Option.some.inj he
    rcases pyGetItem_error_kinds _ _ _ heq with rfl | rfl <;> decide
  · split at h
    · rename_i e1 heq
      obtain ⟨rfl, he⟩ := Prod.mk.injEq _ _ _ _ |>.mp h
      obtain rfl := Option.some.inj he
      rcases pyGetItem_error_kinds _ _ _ heq with rfl | rfl <;> decide
    · split at h
      · rename_i e1 heq
        obtain ⟨rfl, he⟩ := Prod.mk.injEq _ _ _ _ |>.mp h
        obtain rfl := Option.some.inj he
        rcases pyGetItem_error_kinds _ _ _ heq with rfl | rfl <;> decide
      · split at h
        · rename_i e1 heq
          obtain ⟨rfl, he⟩ := Prod.mk.injEq _ _ _ _ |>.mp h
          obtain rfl := Option.some.inj he
          rcases pyGetItem_error_kinds _ _ _ heq with rfl | rfl <;> decide
        · split at h
          · split at h
            · rename_i e1 heq
              obtain ⟨rfl, he⟩ := Prod.mk.injEq _ _ _ _ |>.mp h
              obtain rfl := Option.some.inj he
              rw [splitResultAttr_error_kinds _ _ _ heq]
              decide
            · dsimp only at h
              have h2 := congrArg Prod.snd h
              dsimp only at h2
              rcases update_error_kinds _ _ _ _ _ h2 with rfl | rfl | rfl | rfl | rfl <;> decide
          · obtain ⟨rfl, he⟩ := Prod.mk.injEq _ _ _ _ |>.mp h
            obtain rfl := Option.some.inj he
            decide

theorem entitlements_error_kinds (self : Dict) (env : Env) (d : Dict) (e : PyError)
    (h : RiotAuth.entitlementsStage self env = (d, some e)) :
    e ∉ credential_stage_errors := by
  unfold RiotAuth.entitlementsStage at h
  split at h
  · rename_i e1 heq
    obtain ⟨rfl, he⟩ := Prod.mk.injEq _ _ _ _ |>.mp h
    obtain rfl := Option.some.inj he
    rcases pyGetItem_error_kinds _ _ _ heq with rfl | rfl <;> decide
  · dsimp only at h
    simp at h

/-- Claim C5: the TLS profile built by `create_riot_auth_ssl_ctx` offers
exactly the specified negotiation parameters in the specified order: the
three TLS 1.3 suites, the 15-entry pre-1.3 cipher list, the 9-entry
signature-algorithm list ending with `rsa_pkcs1_sha1`, ALPN containing only
`http/1.1`, minimum protocol version TLS 1.0, and the encrypt-then-MAC
extension disabled (option bit 19 set). -/
theorem claim5_tls_profile (platform : Platform) (default_options : Nat)
    (ctx : SSLContext)
    (h : RiotAuth.create_riot_auth_ssl_ctx platform default_options = .ok ctx) :
    TlsProfileSpec ctx := by
  cases platform
  case other => exact absurd h (by simp [RiotAuth.create_riot_auth_ssl_ctx])
  all_goals
    obtain rfl := Except.ok.inj h
  all_goals
    refine ⟨rfl, rfl, rfl, rfl, rfl, rfl, rfl, rfl, ?_⟩
  all_goals
    have hb : Nat.testBit SSL_OP_NO_ENCRYPT_THEN_MAC 19 = true := by decide
    simp [Nat.testBit_or, hb]

/-- Witness for C5 at the Linux branch with zero default option bits. -/
theorem claim5_witness :
    RiotAuth.create_riot_auth_ssl_ctx Platform.linux 0 =
      .ok ⟨TLSVersion.TLSv1, [pystr "http/1.1"],
        0 ||| SSL_OP_NO_ENCRYPT_THEN_MAC,
        RiotAuth.CIPHERS13, RiotAuth.CIPHERS, RiotAuth.SIGALGS⟩ ∧
    TlsProfileSpec
      ⟨TLSVersion.TLSv1, [pystr "http/1.1"],
        0 ||| SSL_OP_NO_ENCRYPT_THEN_MAC,
        RiotAuth.CIPHERS13, RiotAuth.CIPHERS, RiotAuth.SIGALGS⟩ :=
  ⟨rfl, claim5_tls_profile Platform.linux 0 _ rfl⟩

/-- Claim C7: a call to `authorize` with non-empty username and password
clears the accumulated cookie store before the first request of the run
(`authorize` is the request sequence `authorize_body` run on the instance
returned by the clearing guard, whose jar is empty in that case); a run with
an empty username or password leaves the instance, and hence the
pre-existing cookie store, untouched. -/
theorem claim7_cookie_clear (self : Dict) (u p : PyStr) (q : Bool) (env : Env) :
    RiotAuth.authorize self u p q env =
      RiotAuth.authorize_body (RiotAuth.authorize_clear_step self u p) q env ∧
    (u ≠ [] ∧ p ≠ [] → jarOf (RiotAuth.authorize_clear_step self u p) = []) ∧
    (u = [] ∨ p = [] → RiotAuth.authorize_clear_step self u p = self) := by
  refine ⟨rfl, fun h => ?_, fun h => ?_⟩
  · unfold RiotAuth.authorize_clear_step
    rw [if_pos h]
    unfold jarOf
    rw [dlookup_dset_self]
  · unfold RiotAuth.authorize_clear_step
    exact if_neg (fun hc => by rcases h with h | h; exacts [hc.1 h, hc.2 h])

/-- Witness for C7: with credentials `("u", "p")` the jar of the cleared
instance is empty, and with empty credentials the instance is unchanged. -/
theorem claim7_witness :
    (pystr "u" ≠ [] ∧ pystr "p" ≠ []) ∧
    jarOf (RiotAuth.authorize_clear_step sampleSelf (pystr "u") (pystr "p")) = [] ∧
    RiotAuth.authorize_clear_step sampleSelf [] [] = sampleSelf :=
  ⟨⟨by decide, by decide⟩,
   (claim7_cookie_clear sampleSelf (pystr "u") (pystr "p") false envTrivial).2.1
     ⟨by decide, by decide⟩,
   (claim7_cookie_clear sampleSelf [] [] false envTrivial).2.2 (Or.inl rfl)⟩

/-- Claim C2: `reauthorize` invokes the full authorization flow with empty
username and empty password; it returns `True` when the flow completes,
returns `False` exactly when the flow raises `RiotAuthenticationError`, and
re-raises every other error unmodified. -/
theorem claim2_reauthorize (self : Dict) (env : Env) :
    ((RiotAuth.authorize self [] [] false env).2 = Option.none →
      RiotAuth.reauthorize self env =
        ((RiotAuth.authorize self [] [] false env).1, .ok true)) ∧
    ((RiotAuth.authorize self [] [] false env).2 = some PyError.riotAuthenticationError →
      RiotAuth.reauthorize self env =
        ((RiotAuth.authorize self [] [] false env).1, .ok false)) ∧
    (∀ e, e ≠ PyError.riotAuthenticationError →
      (RiotAuth.authorize self [] [] false env).2 = some e →
      RiotAuth.reauthorize self env =
        ((RiotAuth.authorize self [] [] false env).1, .error e)) := by
  unfold RiotAuth.reauthorize
  rcases hA : RiotAuth.authorize self [] [] false env with ⟨d, oe⟩
  cases oe with
  | none =>
    refine ⟨fun _ => rfl, fun h => ?_, fun e he h => ?_⟩ <;> simp at h
  | some e0 =>
    refine ⟨fun h => ?_, fun h => ?_, fun e he h => ?_⟩
    · simp at h
    · obtain rfl := Option.some.inj h
      dsimp only
      rw [if_pos rfl]
    · obtain rfl := Option.some.inj h
      dsimp only
      rw [if_neg he]

/-- Witness for C2 at an environment whose credential response is
`auth_failure`: the engine raises `RiotAuthenticationError` and
`reauthorize` converts it to `False`. -/
theorem claim2_witness :
    (RiotAuth.authorize sampleSelf [] [] false envAuthFailure).2 =
      some PyError.riotAuthenticationError ∧
    RiotAuth.reauthorize sampleSelf envAuthFailure =
      ((RiotAuth.authorize sampleSelf [] [] false envAuthFailure).1, .ok false) :=
  ⟨rfl, (claim2_reauthorize sampleSelf envAuthFailure).2.1 rfl⟩

/-- Claim C10: if `authorize` raises one of the four credential-stage errors,
all seven token-related session fields are unchanged from their values before
the call — the error is raised before the token-setting step runs. -/
theorem claim10_fields_unchanged_on_credential_error (self : Dict) (u p : PyStr)
    (q : Bool) (env : Env) (d : Dict) (e : PyError)
    (h : RiotAuth.authorize self u p q env = (d, some e))
    (he : e ∈ credential_stage_errors) :
    ∀ k, k ∈ token_fields → dlookup k d = dlookup k self := by
  have hne : ∀ k, k ∈ token_fields → k ≠ cookieJarKey := by decide
  unfold RiotAuth.authorize RiotAuth.authorize_body at h
  dsimp only at h
  split at h
  · rename_i e1 heq
    obtain ⟨rfl, he2⟩ := Prod.mk.injEq _ _ _ _ |>.mp h
    obtain rfl := Option.some.inj he2
    rcases pyGetItem_error_kinds _ _ _ heq with rfl | rfl <;>
      simp [credential_stage_errors] at he
  · split at h
    · rename_i e1 heq
      obtain ⟨rfl, he2⟩ := Prod.mk.injEq _ _ _ _ |>.mp h
      obtain rfl := Option.some.inj he2
      intro k hk
      exact dlookup_clear_step self u p k (hne k hk)
    · split at h
      · rename_i d0 e0 heq
        obtain ⟨rfl, he2⟩ := Prod.mk.injEq _ _ _ _ |>.mp h
        obtain rfl := Option.some.inj he2
        exact absurd he (set_tokens_error_kinds _ _ _ _ heq)
      · exact absurd he (entitlements_error_kinds _ _ _ _ h)

/-- Witness for C10: at the `auth_failure` environment with non-empty
credentials the instance's fields are reported unchanged. -/
theorem claim10_witness :
    RiotAuth.authorize sampleSelf (pystr "u") (pystr "p") false envAuthFailure =
      (sampleSelf, some PyError.riotAuthenticationError) ∧
    (∀ k, k ∈ token_fields → dlookup k sampleSelf = dlookup k sampleSelf) :=
  ⟨rfl,
   claim10_fields_unchanged_on_credential_error sampleSelf (pystr "u") (pystr "p")
     false envAuthFailure sampleSelf PyError.riotAuthenticationError rfl (by decide)⟩

theorem authorize_eq_of_credential_error (self : Dict) (u p : PyStr) (q : Bool)
    (env : Env) (t0 : PyVal) (e : PyError)
    (h0 : pyGetItem env.post_auth (pystr "type") = .ok t0)
    (hc : ∀ jar, RiotAuth.credentialStage t0 env.post_auth env jar = .error e) :
    RiotAuth.authorize self u p q env =
      (RiotAuth.authorize_clear_step self u p, some e) := by
  simp only [RiotAuth.authorize, RiotAuth.authorize_body, h0, hc]

theorem credentialStage_auth_error (t0 t err data0 : PyVal) (env : Env) (jar : Jar)
    (h1 : isStrEq t0 (pystr "response") = false)
    (ht : pyGetItem env.put_auth (pystr "type") = .ok t)
    (htr : isStrEq t (pystr "response") = false)
    (hta : isStrEq t (pystr "auth") = true)
    (herr : pyDictGet env.put_auth (pystr "error") = .ok err) :
    RiotAuth.credentialStage t0 data0 env jar =
      (if isStrEq err (pystr "auth_failure") then .error PyError.riotAuthenticationError
       else if isStrEq err (pystr "rate_limited") then .error PyError.riotRatelimitError
       else .error PyError.riotUnknownErrorTypeError) := by
  simp [RiotAuth.credentialStage, h1, ht, htr, hta, herr]

theorem credentialStage_unknown_type (t0 t data0 : PyVal) (env : Env) (jar : Jar)
    (h1 : isStrEq t0 (pystr "response") = false)
    (ht : pyGetItem env.put_auth (pystr "type") = .ok t)
    (htr : isStrEq t (pystr "response") = false)
    (hta : isStrEq t (pystr "auth") = false)
    (htm : isStrEq t (pystr "multifactor") = false) :
    RiotAuth.credentialStage t0 data0 env jar =
      .error PyError.riotUnknownResponseTypeError := by
  simp [RiotAuth.credentialStage, h1, ht, htr, hta, htm]

theorem credentialStage_mfa_failed (t0 data0 : PyVal) (env : Env) (jar : Jar)
    (m : List (PyStr × PyVal))
    (h1 : isStrEq t0 (pystr "response") = false)
    (ht : pyGetItem env.put_auth (pystr "type") = .ok (PyVal.str (pystr "multifactor")))
    (hm : env.put_mfa = PyVal.dict m)
    (he : dlookup (pystr "error") m = some (PyVal.str (pystr "multifactor_attempt_failed"))) :
    RiotAuth.credentialStage t0 data0 env jar =
      .error (PyError.nameError (pystr "RiotMultifactorAttemptError")) := by
  have d1 : isStrEq (PyVal.str (pystr "multifactor")) (pystr "response") = false := by decide
  have d2 : isStrEq (PyVal.str (pystr "multifactor")) (pystr "auth") = false := by decide
  have d3 : isStrEq (PyVal.str (pystr "multifactor")) (pystr "multifactor") = true := by decide
  have d4 : isStrEq (PyVal.str (pystr "multifactor_attempt_failed"))
      (pystr "multifactor_attempt_failed") = true := by decide
  simp [RiotAuth.credentialStage, h1, ht, hm, he, d1, d2, d3, d4]

/-- Claim C1: during credential submission, the failure branching follows the
response payload exactly: type `"auth"` with error `"auth_failure"` raises
`RiotAuthenticationError`; `"auth"` with error `"rate_limited"` raises
`RiotRatelimitError`; `"auth"` with any other error value raises
`RiotUnknownErrorTypeError`; any type other than `"response"`, `"auth"` and
`"multifactor"` raises `RiotUnknownResponseTypeError`. -/
theorem claim1_credential_branching (self : Dict) (u p : PyStr) (q : Bool)
    (env : Env) (t0 : PyVal)
    (h0 : pyGetItem env.post_auth (pystr "type") = .ok t0)
    (h1 : isStrEq t0 (pystr "response") = false) :
    (pyGetItem env.put_auth (pystr "type") = .ok (PyVal.str (pystr "auth")) →
      (pyDictGet env.put_auth (pystr "error") = .ok (PyVal.str (pystr "auth_failure")) →
        RiotAuth.authorize self u p q env =
          (RiotAuth.authorize_clear_step self u p, some PyError.riotAuthenticationError)) ∧
      (pyDictGet env.put_auth (pystr "error") = .ok (PyVal.str (pystr "rate_limited")) →
        RiotAuth.authorize self u p q env =
          (RiotAuth.authorize_clear_step self u p, some PyError.riotRatelimitError)) ∧
      (∀ err, pyDictGet env.put_auth (pystr "error") = .ok err →
        isStrEq err (pystr "auth_failure") = false →
        isStrEq err (pystr "rate_limited") = false →
        RiotAuth.authorize self u p q env =
          (RiotAuth.authorize_clear_step self u p, some PyError.riotUnknownErrorTypeError))) ∧
    (∀ t, pyGetItem env.put_auth (pystr "type") = .ok t →
      isStrEq t (pystr "response") = false →
      isStrEq t (pystr "auth") = false →
      isStrEq t (pystr "multifactor") = false →
      RiotAuth.authorize self u p q env =
        (RiotAuth.authorize_clear_step self u p, some PyError.riotUnknownResponseTypeError)) := by
  constructor
  · intro ht
    have htr : isStrEq (PyVal.str (pystr "auth")) (pystr "response") = false := by decide
    have hta : isStrEq (PyVal.str (pystr "auth")) (pystr "auth") = true := by decide
    refine ⟨fun herr => ?_, fun herr => ?_, fun err herr hf hr => ?_⟩
    · refine authorize_eq_of_credential_error self u p q env t0 _ h0 (fun jar => ?_)
      rw [credentialStage_auth_error t0 _ _ env.post_auth env jar h1 ht htr hta herr]
      rfl
    · refine authorize_eq_of_credential_error self u p q env t0 _ h0 (fun jar => ?_)
      rw [credentialStage_auth_error t0 _ _ env.post_auth env jar h1 ht htr hta herr]
      rfl
    · refine authorize_eq_of_credential_error self u p q env t0 _ h0 (fun jar => ?_)
      rw [credentialStage_auth_error t0 _ _ env.post_auth env jar h1 ht htr hta herr,
        hf, hr]
      rfl
  · intro t ht htr hta htm
    exact authorize_eq_of_credential_error self u p q env t0 _ h0
      (fun jar => credentialStage_unknown_type t0 t env.post_auth env jar h1 ht htr hta htm)

/-- Witness for C1 at the `auth_failure` environment. -/
theorem claim1_witness :
    RiotAuth.authorize sampleSelf (pystr "u") (pystr "p") false envAuthFailure =
      (RiotAuth.authorize_clear_step sampleSelf (pystr "u") (pystr "p"),
        some PyError.riotAuthenticationError) :=
  ((claim1_credential_branching sampleSelf (pystr "u") (pystr "p") false envAuthFailure
    (PyVal.str (pystr "auth")) rfl (by decide)).1 rfl).1 rfl

/-- Claim C8: when the multifactor code submission response reports
`multifactor_attempt_failed`, the engine terminates with the failure that
evaluating the undefined name `RiotMultifactorAttemptError` produces (a
`NameError` carrying that name), which is distinct from
`RiotAuthenticationError`; the failure is terminal — token extraction never
runs, so every token field is unchanged. -/
theorem claim8_multifactor_attempt_failure (self : Dict) (u p : PyStr) (q : Bool)
    (env : Env) (t0 : PyVal) (m : List (PyStr × PyVal))
    (h0 : pyGetItem env.post_auth (pystr "type") = .ok t0)
    (h1 : isStrEq t0 (pystr "response") = false)
    (ht : pyGetItem env.put_auth (pystr "type") = .ok (PyVal.str (pystr "multifactor")))
    (hm : env.put_mfa = PyVal.dict m)
    (he : dlookup (pystr "error") m = some (PyVal.str (pystr "multifactor_attempt_failed"))) :
    RiotAuth.authorize self u p q env =
      (RiotAuth.authorize_clear_step self u p,
        some (PyError.nameError (pystr "RiotMultifactorAttemptError"))) ∧
    PyError.nameError (pystr "RiotMultifactorAttemptError") ≠
      PyError.riotAuthenticationError ∧
    (∀ k, k ∈ token_fields →
      dlookup k (RiotAuth.authorize self u p q env).1 = dlookup k self) := by
  have hmain := authorize_eq_of_credential_error self u p q env t0 _ h0
    (fun jar => credentialStage_mfa_failed t0 env.post_auth env jar m h1 ht hm he)
  have hne : ∀ k, k ∈ token_fields → k ≠ cookieJarKey := by decide
  refine ⟨hmain, by decide, fun k hk => ?_⟩
  rw [hmain]
  exact dlookup_clear_step self u p k (hne k hk)

/-- Witness for C8 at the multifactor-failure environment. -/
theorem claim8_witness :
    RiotAuth.authorize sampleSelf (pystr "u") (pystr "p") false envMfaFailed =
      (RiotAuth.authorize_clear_step sampleSelf (pystr "u") (pystr "p"),
        some (PyError.nameError (pystr "RiotMultifactorAttemptError"))) ∧
    PyError.nameError (pystr "RiotMultifactorAttemptError") ≠
      PyError.riotAuthenticationError ∧
    (∀ k, k ∈ token_fields →
      dlookup k (RiotAuth.authorize sampleSelf (pystr "u") (pystr "p") false envMfaFailed).1 =
        dlookup k sampleSelf) :=
  claim8_multifactor_attempt_failure sampleSelf (pystr "u") (pystr "p") false envMfaFailed
    (PyVal.str (pystr "auth"))
    [(pystr "error", PyVal.str (pystr "multifactor_attempt_failed"))]
    rfl (by decide) rfl rfl rfl

theorem lastVal_filter_not_mem (l : List (PyStr × PyVal)) (pk : List PyStr)
    (k : PyStr) (hk : k ∉ pk) :
    lastVal k (l.filter (fun p => decide (p.1 ∈ pk))) = Option.none := by
  apply lastVal_none_of_not_mem
  intro hmem
  rcases List.mem_map.mp hmem with ⟨q, hq, rfl⟩
  exact hk (of_decide_eq_true (List.mem_filter.mp hq).2)

theorem lastVal_filter_key (l : List (PyStr × PyVal)) (k : PyStr) (pk : List PyStr) :
    lastVal k (l.filter (fun p => decide (p.1 ∈ pk))) =
      if k ∈ pk then lastVal k l else Option.none := by
  induction l with
  | nil => simp [lastVal]
  | cons q rest ih =>
    by_cases hq : q.1 ∈ pk
    · rw [List.filter_cons_of_pos (by simpa using hq)]
      show (match lastVal k (rest.filter (fun p => decide (p.1 ∈ pk))) with
        | some v => some v
        | Option.none => if q.1 = k then some q.2 else Option.none) = _
      rw [ih]
      by_cases hk : k ∈ pk
      · rw [if_pos hk, if_pos hk]
        show _ = (match lastVal k rest with
          | some v => some v
          | Option.none => if q.1 = k then some q.2 else Option.none)
        cases lastVal k rest <;> rfl
      · rw [if_neg hk, if_neg hk]
        have hne : q.1 ≠ k := fun hqk => hk (hqk ▸ hq)
        simp [hne]
    · rw [List.filter_cons_of_neg (by simpa using hq)]
      rw [ih]
      by_cases hk : k ∈ pk
      · rw [if_pos hk, if_pos hk]
        have hne : q.1 ≠ k := fun hqk => hq (hqk ▸ hk)
        show lastVal k rest = (match lastVal k rest with
          | some v => some v
          | Option.none => if q.1 = k then some q.2 else Option.none)
        cases lastVal k rest <;> simp [hne]
      · rw [if_neg hk, if_neg hk]

/-- Claim C6: the session-update operation sets only fields in the allow-list
of public session fields: any key outside the allow-list is silently dropped
(filtering kwargs to the allow-list does not change the result at all, and
with no token extraction the operation never errors), and every attribute
outside the allow-list — in particular every underscore-prefixed internal
attribute, which is never in `predefined_keys` — keeps its value. -/
theorem claim6_update_allowlist (self : Dict) (ej : Bool)
    (pairs : List (PyStr × PyStr)) (kwargs : List (PyStr × PyVal)) :
    (∀ k, k ∉ predefined_keys self →
      dlookup k (RiotAuth.update self ej pairs kwargs).1 = dlookup k self) ∧
    RiotAuth.update self ej pairs kwargs =
      RiotAuth.update self ej pairs
        (kwargs.filter (fun p => decide (p.1 ∈ predefined_keys self))) ∧
    (ej = false → (RiotAuth.update self ej pairs kwargs).2 = Option.none) := by
  refine ⟨fun k hk => ?_, ?_, fun hej => ?_⟩
  · unfold RiotAuth.update
    dsimp only
    have hbase : dlookup k (dictUpdate self
        (kwargs.filter (fun p => decide (p.1 ∈ predefined_keys self)))) =
        dlookup k self := by
      rw [dlookup_dictUpdate, lastVal_filter_not_mem _ _ _ hk]
    split
    · split
      · exact hbase
      · dsimp only
        rw [dlookup_dictUpdate, lastVal_filter_not_mem _ _ _ hk, hbase]
    · exact hbase
  · unfold RiotAuth.update
    dsimp only
    rw [List.filter_filter]
    simp only [Bool.and_self]
  · subst hej
    unfold RiotAuth.update
    rfl

/-- Witness for C6: unknown and underscore-prefixed keys in the URI-extracted
map are dropped without error and the internal attribute is unchanged. -/
theorem claim6_witness :
    (pystr "_cookie_jar" ∉ predefined_keys sampleSelf) ∧
    dlookup (pystr "_cookie_jar")
      (RiotAuth.update sampleSelf false default_key_attr_pairs
        [ (pystr "_cookie_jar", PyVal.str (pystr "hacked")),
          (pystr "unknown_key", PyVal.str (pystr "zzz")) ]).1 =
      dlookup (pystr "_cookie_jar") sampleSelf ∧
    (RiotAuth.update sampleSelf false default_key_attr_pairs
      [ (pystr "_cookie_jar", PyVal.str (pystr "hacked")),
        (pystr "unknown_key", PyVal.str (pystr "zzz")) ]).2 = Option.none :=
  ⟨by decide,
   (claim6_update_allowlist sampleSelf false default_key_attr_pairs
     [ (pystr "_cookie_jar", PyVal.str (pystr "hacked")),
       (pystr "unknown_key", PyVal.str (pystr "zzz")) ]).1 _ (by decide),
   (claim6_update_allowlist sampleSelf false default_key_attr_pairs
     [ (pystr "_cookie_jar", PyVal.str (pystr "hacked")),
       (pystr "unknown_key", PyVal.str (pystr "zzz")) ]).2.2 rfl⟩

theorem get_keys_ok_keys (self : Dict) (pairs : List (PyStr × PyStr))
    (l : List (PyStr × PyVal))
    (h : RiotAuth.get_keys_from_access_token self pairs = .ok l) :
    l.map Prod.fst = pairs.map Prod.snd := by
  unfold RiotAuth.get_keys_from_access_token at h
  split at h
  · split at h
    · simp at h
    · split at h
      · simp at h
      · split at h
        · simp at h
        · obtain rfl := Except.ok.inj h
          simp
        · simp at h
  · simp at h

/-- Counterexample to C9 as stated: a redirect payload whose fragment carries
an `access_token` (a decodable JWT) but no `token_type` is processed without
error by the token-setting step, and the resulting session has a non-empty
`access_token` while `token_type` is still `None`. -/
theorem claim9_counterexample :
    (RiotAuth.set_tokens_from_uri sampleSelf c9Payload).2 = Option.none ∧
    isNonEmptyStr (dlookup (pystr "access_token")
      (RiotAuth.set_tokens_from_uri sampleSelf c9Payload).1) = true ∧
    ¬ isNonEmptyStr (dlookup (pystr "token_type")
      (RiotAuth.set_tokens_from_uri sampleSelf c9Payload).1) = true := by
  refine ⟨by decide, by decide, by decide⟩

/-- Claim C9 as amended: the token-setting merge preserves the invariant
"non-empty `access_token` implies non-empty `token_type`" provided the
extracted parameter map carries a non-empty `token_type` whenever it carries
an `access_token` and never carries an empty one, the session exposes
`token_type` among its public fields, and the invariant held before the
merge.  (As originally stated the claim is false — see the counterexample,
whose payload sets `access_token` without `token_type`.) -/
theorem claim9_amended_invariant (self : Dict) (kwargs : List (PyStr × PyVal))
    (hinv : token_type_invariant self)
    (htt : pystr "token_type" ∈ predefined_keys self)
    (h1 : lastVal (pystr "access_token") kwargs ≠ Option.none →
      ∃ s, lastVal (pystr "token_type") kwargs = some (PyVal.str s) ∧ s ≠ [])
    (h2 : ∀ v, lastVal (pystr "token_type") kwargs = some v →
      ∃ s, v = PyVal.str s ∧ s ≠ []) :
    token_type_invariant
      (RiotAuth.update self true default_key_attr_pairs kwargs).1 := by
  have hframe : ∀ k, k ∈ [pystr "access_token", pystr "token_type"] →
      dlookup k (RiotAuth.update self true default_key_attr_pairs kwargs).1 =
        dlookup k (dictUpdate self
          (kwargs.filter (fun p => decide (p.1 ∈ predefined_keys self)))) := by
    intro k hkmem
    have hknot : k ∉ List.map Prod.snd default_key_attr_pairs := by
      fin_cases hkmem <;> decide
    unfold RiotAuth.update
    dsimp only
    rw [if_pos rfl]
    split
    · rfl
    · rename_i l heq
      dsimp only
      rw [dlookup_dictUpdate]
      have hkeys := get_keys_ok_keys _ _ _ heq
      have hnk : k ∉ (l.filter
          (fun p => decide (p.1 ∈ predefined_keys self))).map Prod.fst := by
        intro hmem
        rcases List.mem_map.mp hmem with ⟨q, hq, rfl⟩
        have hql : q ∈ l := (List.mem_filter.mp hq).1
        have hqk : q.1 ∈ l.map Prod.fst := List.mem_map.mpr ⟨q, hql, rfl⟩
        rw [hkeys] at hqk
        exact hknot hqk
      rw [lastVal_none_of_not_mem _ _ hnk]
  have hA := hframe (pystr "access_token") (by simp)
  have hT := hframe (pystr "token_type") (by simp)
  intro hacc
  rw [hT, dlookup_dictUpdate, lastVal_filter_key, if_pos htt]
  rw [hA, dlookup_dictUpdate, lastVal_filter_key] at hacc
  rcases hTk : lastVal (pystr "token_type") kwargs with _ | v
  · have hAk : lastVal (pystr "access_token") kwargs = Option.none := by
      by_contra hne
      rcases h1 hne with ⟨s, hs, _⟩
      rw [hTk] at hs
      exact Option.noConfusion hs
    rw [hAk] at hacc
    have hacc2 : isNonEmptyStr (dlookup (pystr "access_token") self) = true := by
      by_cases hpkA : pystr "access_token" ∈ predefined_keys self
      · rw [if_pos hpkA] at hacc
        exact hacc
      · rw [if_neg hpkA] at hacc
        exact hacc
    have := hinv hacc2
    rcases hTs : dlookup (pystr "token_type") self with _ | w
    · rw [hTs] at this
      exact absurd this (by decide)
    · rw [hTs] at this
      simpa using this
  · rcases h2 v hTk with ⟨s, rfl, hne⟩
    exact decide_eq_true hne

/-- Witness for the amended C9: a parameter map carrying both tokens
preserves the invariant on a fresh session. -/
theorem claim9_amended_witness :
    token_type_invariant sampleSelf ∧
    (pystr "token_type" ∈ predefined_keys sampleSelf) ∧
    token_type_invariant
      (RiotAuth.update sampleSelf true default_key_attr_pairs
        [ (pystr "access_token", PyVal.str sampleToken),
          (pystr "token_type", PyVal.str (pystr "Bearer")) ]).1 :=
  ⟨fun h => absurd h (by decide), by decide,
   claim9_amended_invariant sampleSelf
     [ (pystr "access_token", PyVal.str sampleToken),
       (pystr "token_type", PyVal.str (pystr "Bearer")) ]
     (fun h => absurd h (by decide)) (by decide)
     (fun _ => ⟨pystr "Bearer", rfl, by decide⟩)
     (fun v hv => ⟨pystr "Bearer", (Option.some.inj hv).symm, by decide⟩)⟩

theorem b64val_b64enc : ∀ v, v < 64 → b64val (b64enc v) = some v := by decide

theorem b64enc_ne_pad : ∀ v, v < 64 → b64enc v ≠ '=' := by decide

theorem urlsafeTranslate_b64enc : ∀ v, v < 64 →
    urlsafeTranslate (b64enc v) = b64enc v := by decide

theorem a2b_cons_q0 (c : Char) (v : Nat) (rest : List Char) (out : List Nat)
    (hv : b64val c = some v) (hne : c ≠ '=') (leftchar : Nat) :
    a2b (c :: rest) 0 leftchar out = a2b rest 1 (leftchar * 64 + v) out := by
  simp only [a2b]
  rw [if_neg hne, hv]
  simp

theorem a2b_cons_q1 (c : Char) (v : Nat) (rest : List Char) (out : List Nat)
    (hv : b64val c = some v) (hne : c ≠ '=') (leftchar : Nat) :
    a2b (c :: rest) 1 leftchar out =
      a2b rest 2 ((leftchar * 64 + v) % 16) ((leftchar * 64 + v) / 16 :: out) := by
  simp only [a2b]
  rw [if_neg hne, hv]
  simp

theorem a2b_cons_q2 (c : Char) (v : Nat) (rest : List Char) (out : List Nat)
    (hv : b64val c = some v) (hne : c ≠ '=') (leftchar : Nat) :
    a2b (c :: rest) 2 leftchar out =
      a2b rest 3 ((leftchar * 64 + v) % 4) ((leftchar * 64 + v) / 4 :: out) := by
  simp only [a2b]
  rw [if_neg hne, hv]
  simp

theorem a2b_cons_q3 (c : Char) (v : Nat) (rest : List Char) (out : List Nat)
    (hv : b64val c = some v) (hne : c ≠ '=') (leftchar : Nat) :
    a2b (c :: rest) 3 leftchar out = a2b rest 0 0 ((leftchar * 64 + v) :: out) := by
  simp only [a2b]
  rw [if_neg hne, hv]
  simp

theorem a2b_pad_skip0 (rest : List Char) (leftchar : Nat) (out : List Nat) :
    a2b ('=' :: rest) 0 leftchar out = a2b rest 0 leftchar out := by
  simp [a2b]

theorem a2b_pad_stop2 (rest : List Char) (leftchar : Nat) (out : List Nat)
    (hnext : nextValid rest = some '=') :
    a2b ('=' :: rest) 2 leftchar out = some out.reverse := by
  simp [a2b, hnext]

theorem a2b_pad_stop3 (rest : List Char) (leftchar : Nat) (out : List Nat) :
    a2b ('=' :: rest) 3 leftchar out = some out.reverse := by
  simp [a2b]

theorem b64encode_map_translate : ∀ (bs : List Nat), (∀ x ∈ bs, x < 256) →
    (b64encode bs).map urlsafeTranslate = b64encode bs := by
  intro bs
  induction bs using b64encode.induct with
  | case1 => intro _; rfl
  | case2 a =>
    intro h
    have ha : a < 256 := h a (by simp)
    simp [b64encode, urlsafeTranslate_b64enc _ (by omega : a / 4 < 64),
      urlsafeTranslate_b64enc _ (by omega : a % 4 * 16 < 64),
      (by decide : urlsafeTranslate '=' = '=')]
  | case3 a b =>
    intro h
    have ha : a < 256 := h a (by simp)
    have hb : b < 256 := h b (by simp)
    simp [b64encode, urlsafeTranslate_b64enc _ (by omega : a / 4 < 64),
      urlsafeTranslate_b64enc _ (by omega : a % 4 * 16 + b / 16 < 64),
      urlsafeTranslate_b64enc _ (by omega : b % 16 * 4 < 64),
      (by decide : urlsafeTranslate '=' = '=')]
  | case4 a b c rest ih =>
    intro h
    have ha : a < 256 := h a (by simp)
    have hb : b < 256 := h b (by simp)
    have hc : c < 256 := h c (by simp)
    have hrest : ∀ x ∈ rest, x < 256 := fun x hx => h x (by simp [hx])
    simp [b64encode, urlsafeTranslate_b64enc _ (by omega : a / 4 < 64),
      urlsafeTranslate_b64enc _ (by omega : a % 4 * 16 + b / 16 < 64),
      urlsafeTranslate_b64enc _ (by omega : b % 16 * 4 + c / 64 < 64),
      urlsafeTranslate_b64enc _ (by omega : c % 64 < 64), ih hrest]

theorem a2b_b64encode : ∀ (bs : List Nat), (∀ x ∈ bs, x < 256) → ∀ (acc : List Nat),
    a2b (b64encode bs ++ pystr "===") 0 0 acc = some (acc.reverse ++ bs) := by
  intro bs
  induction bs using b64encode.induct with
  | case1 =>
    intro _ acc
    show a2b ('=' :: '=' :: '=' :: []) 0 0 acc = some (acc.reverse ++ [])
    rw [a2b_pad_skip0, a2b_pad_skip0, a2b_pad_skip0]
    simp [a2b]
  | case2 a =>
    intro h acc
    have ha : a < 256 := h a (by simp)
    show a2b (b64enc (a / 4) :: b64enc (a % 4 * 16) ::
      '=' :: '=' :: '=' :: '=' :: '=' :: []) 0 0 acc = some (acc.reverse ++ [a])
    rw [a2b_cons_q0 _ _ _ _ (b64val_b64enc _ (by omega)) (b64enc_ne_pad _ (by omega)),
      a2b_cons_q1 _ _ _ _ (b64val_b64enc _ (by omega)) (b64enc_ne_pad _ (by omega)),
      a2b_pad_stop2 ['=', '=', '=', '='] _ _ (by decide)]
    have hv : (0 * 64 + a / 4) * 64 + a % 4 * 16 = a * 16 := by omega
    rw [hv]
    have hd : a * 16 / 16 = a := by omega
    rw [hd, List.reverse_cons]
  | case3 a b =>
    intro h acc
    have ha : a < 256 := h a (by simp)
    have hb : b < 256 := h b (by simp)
    show a2b (b64enc (a / 4) :: b64enc (a % 4 * 16 + b / 16) :: b64enc (b % 16 * 4) ::
      '=' :: '=' :: '=' :: '=' :: []) 0 0 acc = some (acc.reverse ++ [a, b])
    rw [a2b_cons_q0 _ _ _ _ (b64val_b64enc _ (by omega)) (b64enc_ne_pad _ (by omega)),
      a2b_cons_q1 _ _ _ _ (b64val_b64enc _ (by omega)) (b64enc_ne_pad _ (by omega)),
      a2b_cons_q2 _ _ _ _ (b64val_b64enc _ (by omega)) (b64enc_ne_pad _ (by omega)),
      a2b_pad_stop3]
    have h1 : ((0 * 64 + a / 4) * 64 + (a % 4 * 16 + b / 16)) / 16 = a := by omega
    have h2 : (((0 * 64 + a / 4) * 64 + (a % 4 * 16 + b / 16)) % 16 * 64 + b % 16 * 4) / 4 = b := by
      omega
    rw [h1, h2]
    simp
  | case4 a b c rest ih =>
    intro h acc
    have ha : a < 256 := h a (by simp)
    have hb : b < 256 := h b (by simp)
    have hc : c < 256 := h c (by simp)
    have hrest : ∀ x ∈ rest, x < 256 := fun x hx => h x (by simp [hx])
    show a2b (b64enc (a / 4) :: b64enc (a % 4 * 16 + b / 16) ::
      b64enc (b % 16 * 4 + c / 64) :: b64enc (c % 64) ::
      (b64encode rest ++ pystr "===")) 0 0 acc = some (acc.reverse ++ (a :: b :: c :: rest))
    rw [a2b_cons_q0 _ _ _ _ (b64val_b64enc _ (by omega)) (b64enc_ne_pad _ (by omega)),
      a2b_cons_q1 _ _ _ _ (b64val_b64enc _ (by omega)) (b64enc_ne_pad _ (by omega)),
      a2b_cons_q2 _ _ _ _ (b64val_b64enc _ (by omega)) (b64enc_ne_pad _ (by omega)),
      a2b_cons_q3 _ _ _ _ (b64val_b64enc _ (by omega)) (b64enc_ne_pad _ (by omega))]
    have h1 : ((0 * 64 + a / 4) * 64 + (a % 4 * 16 + b / 16)) / 16 = a := by omega
    have h2 : (((0 * 64 + a / 4) * 64 + (a % 4 * 16 + b / 16)) % 16 * 64 +
        (b % 16 * 4 + c / 64)) / 4 = b := by omega
    have h3 : (((0 * 64 + a / 4) * 64 + (a % 4 * 16 + b / 16)) % 16 * 64 +
        (b % 16 * 4 + c / 64)) % 4 * 64 + c % 64 = c := by omega
    rw [h1, h2, h3, ih hrest (c :: b :: a :: acc)]
    simp

theorem urlsafe_b64decode_pad3_b64encode (bs : List Nat) (h : ∀ x ∈ bs, x < 256) :
    urlsafe_b64decode_pad3 (b64encode bs) = some bs := by
  unfold urlsafe_b64decode_pad3
  rw [List.map_append, b64encode_map_translate bs h,
    (by decide : (pystr "===").map urlsafeTranslate = pystr "==="),
    a2b_b64encode bs h []]
  simp

/-- Claim C3: for every access-token string of three dot-separated segments
whose middle segment is the padded standard base64 encoding of bytes that
parse as a JSON object, the token extractor decodes that middle segment and
returns `sub` mapped to `user_id` and `exp` mapped to `expires_at`, with the
values carried by the embedded JSON payload. -/
theorem claim3_token_extraction (self : Dict) (tok s0 s1 s2 : PyStr)
    (bs : List Nat) (m : List (PyStr × PyVal)) (vs ve : PyVal)
    (hself : dlookup (pystr "access_token") self = some (PyVal.str tok))
    (hsplit : splitOnChar '.' tok = [s0, s1, s2])
    (henc : s1 = b64encode bs)
    (hbytes : ∀ x ∈ bs, x < 256)
    (hjson : json_loads_bytes bs = .ok (PyVal.dict m))
    (hsub : dlookup (pystr "sub") m = some vs)
    (hexp : dlookup (pystr "exp") m = some ve) :
    RiotAuth.get_keys_from_access_token self default_key_attr_pairs =
      .ok [(pystr "user_id", vs), (pystr "expires_at", ve)] := by
  unfold RiotAuth.get_keys_from_access_token
  simp only [hself, hsplit, List.get?_cons_succ, List.get?_cons_zero, henc,
    urlsafe_b64decode_pad3_b64encode bs hbytes, hjson, default_key_attr_pairs]
  simp [hsub, hexp]

/-- Witness for C3 at a token embedding `{"sub":"a","exp":1}`. -/
theorem claim3_witness :
    splitOnChar '.' sampleToken =
      [pystr "x", pystr "eyJzdWIiOiJhIiwiZXhwIjoxfQ==", pystr "y"] ∧
    pystr "eyJzdWIiOiJhIiwiZXhwIjoxfQ==" = b64encode sampleClaims ∧
    json_loads_bytes sampleClaims =
      .ok (PyVal.dict [(pystr "sub", PyVal.str (pystr "a")), (pystr "exp", PyVal.int 1)]) ∧
    RiotAuth.get_keys_from_access_token
      (dset sampleSelf (pystr "access_token") (PyVal.str sampleToken))
      default_key_attr_pairs =
      .ok [(pystr "user_id", PyVal.str (pystr "a")), (pystr "expires_at", PyVal.int 1)] :=
  ⟨by decide, by decide, rfl,
   claim3_token_extraction
     (dset sampleSelf (pystr "access_token") (PyVal.str sampleToken))
     sampleToken (pystr "x") (pystr "eyJzdWIiOiJhIiwiZXhwIjoxfQ==") (pystr "y")
     sampleClaims
     [(pystr "sub", PyVal.str (pystr "a")), (pystr "exp", PyVal.int 1)]
     (PyVal.str (pystr "a")) (PyVal.int 1)
     rfl (by decide) (by decide) (by decide) rfl rfl rfl⟩

/-- Claim C4: for every access-token string whose middle dot-separated
segment does not decode (bad base64 padding) or whose decoded bytes are not
valid JSON, the token extractor fails with a malformed-token error kind, the
session-update step returns that error after the kwargs merge, and the error
propagates out of `authorize` (shown on the cookie-reauthentication path,
where the initial response is the redirect payload). -/
theorem claim4_malformed_token (tok s0 s1 s2 : PyStr)
    (hsplit : splitOnChar '.' tok = [s0, s1, s2])
    (hbad : urlsafe_b64decode_pad3 s1 = Option.none ∨
      ∃ bs e0, urlsafe_b64decode_pad3 s1 = some bs ∧ json_loads_bytes bs = .error e0) :
    ∃ e, IsMalformedTokenError e ∧
      (∀ self, dlookup (pystr "access_token") self = some (PyVal.str tok) →
        RiotAuth.get_keys_from_access_token self default_key_attr_pairs = .error e) ∧
      (∀ self kwargs,
        dlookup (pystr "access_token")
          (dictUpdate self
            (kwargs.filter (fun p => decide (p.1 ∈ predefined_keys self)))) =
          some (PyVal.str tok) →
        RiotAuth.update self true default_key_attr_pairs kwargs =
          (dictUpdate self
            (kwargs.filter (fun p => decide (p.1 ∈ predefined_keys self))), some e)) ∧
      (∀ self q env d',
        pyGetItem env.post_auth (pystr "type") = .ok (PyVal.str (pystr "response")) →
        RiotAuth.set_tokens_from_uri
          (dset self cookieJarKey (PyVal.jar (env.post_auth_cookies (jarOf self))))
          env.post_auth = (d', some e) →
        RiotAuth.authorize self [] [] q env = (d', some e)) := by
  have main : ∃ e, IsMalformedTokenError e ∧
      (∀ self, dlookup (pystr "access_token") self = some (PyVal.str tok) →
        RiotAuth.get_keys_from_access_token self default_key_attr_pairs = .error e) := by
    rcases hbad with hnone | ⟨bs, e0, hsome, herr⟩
    · refine ⟨PyError.binasciiError, Or.inl rfl, fun self hself => ?_⟩
      unfold RiotAuth.get_keys_from_access_token
      simp only [hself, hsplit, List.get?_cons_succ, List.get?_cons_zero, hnone]
    · refine ⟨e0, ?_, fun self hself => ?_⟩
      · rcases json_loads_error_kinds _ _ herr with rfl | rfl
        · exact Or.inr (Or.inl rfl)
        · exact Or.inr (Or.inr rfl)
      · unfold RiotAuth.get_keys_from_access_token
        simp only [hself, hsplit, List.get?_cons_succ, List.get?_cons_zero, hsome, herr]
  rcases main with ⟨e, hmal, hgk⟩
  refine ⟨e, hmal, hgk, fun self kwargs hd1 => ?_, fun self q env d' h0 hst => ?_⟩
  · unfold RiotAuth.update
    dsimp only
    rw [if_pos rfl, hgk _ hd1]
  · have hclear : RiotAuth.authorize_clear_step self [] [] = self := by
      unfold RiotAuth.authorize_clear_step
      rw [if_neg (by simp)]
    have hcs : RiotAuth.credentialStage (PyVal.str (pystr "response")) env.post_auth env
        (env.post_auth_cookies (jarOf self)) =
        .ok (env.post_auth, env.post_auth_cookies (jarOf self)) := by
      unfold RiotAuth.credentialStage
      rw [if_pos (show isStrEq (PyVal.str (pystr "response")) (pystr "response") = true
        from rfl)]
    unfold RiotAuth.authorize RiotAuth.authorize_body
    rw [hclear]
    simp only [h0, hcs, hst]

/-- Witness for C4 at the token `a.!!!.b`, whose middle segment decodes to no
bytes at all, so JSON parsing fails. -/
theorem claim4_witness :
    splitOnChar '.' badToken = [pystr "a", pystr "!!!", pystr "b"] ∧
    urlsafe_b64decode_pad3 (pystr "!!!") = some [] ∧
    json_loads_bytes [] = .error PyError.jsonDecodeError ∧
    (∃ e, IsMalformedTokenError e ∧
      RiotAuth.get_keys_from_access_token
        (dset sampleSelf (pystr "access_token") (PyVal.str badToken))
        default_key_attr_pairs = .error e) :=
  ⟨by decide, by decide, rfl, by
    rcases claim4_malformed_token badToken (pystr "a") (pystr "!!!") (pystr "b")
      (by decide) (Or.inr ⟨[], PyError.jsonDecodeError, by decide, rfl⟩) with
      ⟨e, hmal, hgk, _, _⟩
    exact ⟨e, hmal, hgk _ rfl⟩⟩
